import Mathlib

/-!
Verification development for the agentic-intake-assistant repository.

The Python sources under `src/src/agent/` are shallowly embedded below:
Python strings become Lean `String`s, dictionaries become association
lists (insertion order preserved, as in CPython), mutable objects become
explicit state records, and the two interactive collaborators (stdin and
the LLM-backed corrector) become oracle functions supplied as arguments.
-/

namespace Intake

/-! ## Python string primitives -/

/-- The whitespace characters stripped by Python's `str.strip()` (ASCII range,
which is all the repository's code paths produce). -/
def isPyWs (c : Char) : Bool :=
  c = ' ' ∨ c = '\t' ∨ c = '\n' ∨ c = '\x0d' ∨ c = '\x0b' ∨ c = '\x0c'

/-- `str.strip()` on a character list: drop whitespace from both ends. -/
def pyStripList (l : List Char) : List Char :=
  ((l.dropWhile isPyWs).reverse.dropWhile isPyWs).reverse

/-- Python `s.strip()`. -/
def pyStrip (s : String) : String :=
  String.mk (pyStripList s.data)

/-- Python `s.lower()` (ASCII case folding, which covers the repository's data). -/
def pyLower (s : String) : String :=
  String.mk (s.data.map Char.toLower)

/-- Whether `pre` is a prefix of `l` (Python `str.startswith`). -/
def listStarts : List Char → List Char → Bool
  | [], _ => true
  | _ :: _, [] => false
  | a :: as, b :: bs => a = b && listStarts as bs

/-- Whether `needle` occurs as a contiguous sublist of `hay` (Python `in`). -/
def listInfix (needle : List Char) : List Char → Bool
  | [] => listStarts needle []
  | c :: rest => listStarts needle (c :: rest) || listInfix needle rest

/-- Python `needle in hay` for strings. -/
def strIn (needle hay : String) : Bool :=
  listInfix needle.data hay.data

/-- Python `s.startswith(pre)`. -/
def pyStarts (s pre : String) : Bool :=
  listStarts pre.data s.data

/-- Python `len(s)`. -/
def pyLen (s : String) : Nat :=
  s.data.length

/-- Python `s.isdigit()`: non-empty and all digits. -/
def isDigitStr (s : String) : Bool :=
  s.data ≠ [] ∧ s.data.all Char.isDigit

/-- Value of a digit run, most significant first. -/
def digitsToNat (l : List Char) : Nat :=
  l.foldl (fun n c => n * 10 + (c.toNat - '0'.toNat)) 0

/-- Leftmost run of digits in a character list, as a number: the regex
search for `(\d+)` in `extract_first_int` (normalizers.py / agent.py). -/
def firstIntList : List Char → Option Nat
  | [] => none
  | c :: cs =>
    if c.isDigit then some (digitsToNat ((c :: cs).takeWhile Char.isDigit))
    else firstIntList cs

/-- `extract_first_int(text)`: the first digit run in the text, if any. -/
def extract_first_int (s : String) : Option Nat :=
  firstIntList s.data

/-- A regex word character, for the `\b` boundary in the timeline pattern. -/
def isWordChar (c : Char) : Bool :=
  c.isAlphanum || c = '_'

/-- The `\b` boundary holds at this position: end of input or a non-word char. -/
def boundaryOk : List Char → Bool
  | [] => true
  | c :: _ => !isWordChar c

/-- After the digits and optional whitespace, match `day|days|d` followed by a
word boundary (the alternation and `\b` of the timeline regex
`(\d+)\s*(day|days|d)\b`). -/
def dayUnitMatch (l : List Char) : Bool :=
  (listStarts "days".data l && boundaryOk (l.drop 4)) ||
  (listStarts "day".data l && boundaryOk (l.drop 3)) ||
  (listStarts "d".data l && boundaryOk (l.drop 1))

/-- `re.search(r"(\d+)\s*(day|days|d)\b", t)`: the leftmost digit run whose
tail (after optional whitespace) names a day unit with a word boundary.
Shrinking the digit run can never rescue a failed match (the next character
would still be a digit, not `d` or whitespace-then-`d`), and every position
inside a failed run fails for the same tail, so scanning character by
character is equivalent to the regex's backtracking search. -/
def findDayCount : List Char → Option Nat
  | [] => none
  | c :: cs =>
    if c.isDigit then
      let run := (c :: cs).takeWhile Char.isDigit
      let after := (c :: cs).dropWhile Char.isDigit
      if dayUnitMatch (after.dropWhile isPyWs) then some (digitsToNat run)
      else findDayCount cs
    else findDayCount cs

/-- `_BUDGET_NUM = re.compile(r"\$\s*(\d{2,6})")` searched left to right
(field_extractor.py): a dollar sign, optional whitespace, then two to six
digits (the group takes at most six). -/
def findBudgetNum : List Char → Option Nat
  | [] => none
  | c :: cs =>
    if c = '$' then
      let rest := cs.dropWhile isPyWs
      let ds := rest.takeWhile Char.isDigit
      if ds.length ≥ 2 then some (digitsToNat (ds.take 6))
      else findBudgetNum cs
    else findBudgetNum cs

/-- First value bound to a key in an association list (Python `dict` lookup;
the update discipline below keeps keys unique). -/
def alookup {β : Type} (k : String) : List (String × β) → Option β
  | [] => none
  | (k', v) :: rest => if k' = k then some v else alookup k rest

/-- `dict[k] = v`: replace the value at an existing key in place, else append
(CPython keeps a key's insertion position on overwrite). -/
def aset {β : Type} (k : String) (v : β) : List (String × β) → List (String × β)
  | [] => [(k, v)]
  | (k', v') :: rest => if k' = k then (k, v) :: rest else (k', v') :: aset k v rest

/-! ## Configuration data model (the intent-config JSON document) -/

/-- An intent's `match` rule: `always: true`, or keyword / starts-with lists. -/
structure MatchRule where
  always : Bool := false
  keywords_any : List String := []
  starts_with_any : List String := []
deriving Repr, DecidableEq

/-- One step of an intent's `flow`. Absent dict keys are modelled by the
defaults (`""` for a missing `field` or `question`, `"text"` for a missing
`normalize`), matching Python truthiness at every use site. -/
structure FlowStep where
  field : String := ""
  question : String := ""
  required : Bool := false
  normalize : String := "text"
deriving Repr, DecidableEq

/-- An intent's `handoff` block; `none` models an absent key. -/
structure HandoffCfg where
  recommended_action : Option String := none
  routing_hint : Option String := none
deriving Repr, DecidableEq

/-- One configured intent. `id` of `""` models an absent id. -/
structure Intent where
  id : String := ""
  priority : Int := 0
  mrule : MatchRule := {}
  flow : List FlowStep := []
  label : String := ""
  service_category : String := ""
  handoff : HandoffCfg := {}
deriving Repr, DecidableEq

/-- The intent-configuration document. `normalizers` maps a kind name to its
synonym table (canonical value to synonym list), in insertion order;
`constraintsIgnore` is the table's `constraints_ignore` entry.
`defaultsHandoff = none` models a missing or empty `defaults.handoff` dict;
`defaultsServiceCategory = none` a missing `defaults.service_category`. -/
structure Config where
  intents : List Intent := []
  normalizers : List (String × List (String × List String)) := []
  constraintsIgnore : List String := []
  defaultsHandoff : Option HandoffCfg := none
  defaultsServiceCategory : Option String := none
deriving Repr, DecidableEq

/-! ## normalizers.py -/

/-- `norm_text(s)` (normalizers.py line 7, agent.py `_norm_text`). -/
def norm_text (s : String) : String :=
  pyStrip s

/-- `norm_lc(s)` (normalizers.py line 11, agent.py `_norm_lc`). -/
def norm_lc (s : String) : String :=
  pyLower (pyStrip s)

/-- `is_valid_service_type(text)` (normalizers.py lines 25-38, duplicated as
`GenericIntakeAgent._is_valid_service_type`). -/
def is_valid_service_type (text : String) : Bool :=
  let t := norm_lc text
  if t = "" then false
  else if ["what", "how", "price", "pricing", "cost", "charge", "rates",
           "hours", "address", "?"].any (fun m => strIn m t) then false
  else if pyLen t < 3 then false
  else if isDigitStr t then false
  else if ["yes", "no", "ok", "okay", "urgent", "flexible"].contains t then false
  else true

/-- The synonym scan of `normalize_value`: for each canonical value (in table
order), return it if `raw_lc` equals one of its synonyms lowered and
stripped. -/
def synonymLookup (raw_lc : String) : List (String × List String) → Option String
  | [] => none
  | (canon, syns) :: rest =>
    if syns.any (fun s => raw_lc = pyStrip (pyLower s)) then some canon
    else synonymLookup raw_lc rest

/-- The numeric budget bands of `normalize_value`'s `budget` branch
(normalizers.py lines 69-77, agent.py lines 245-253; the identical bands are
also inlined in `extract_prefill`, field_extractor.py lines 33-42). -/
def budgetBucket (n : Nat) : String :=
  if n < 50 then "<50"
  else if 50 ≤ n ∧ n ≤ 100 then "50-100"
  else if 100 < n ∧ n ≤ 300 then "100-300"
  else if 300 < n ∧ n ≤ 500 then "300-500"
  else "500-1000"

/-- The tail of `normalize_value`'s timeline branch after the day-count regex
falls through: the `"week"` checks and the canonical-name checks
(normalizers.py lines 99-109). -/
def timelineWeekTail (t : String) : String :=
  if strIn "week" t then
    (if strIn "2" t || strIn "two" t then "within_2_weeks" else "within_1_week")
  else if strIn "within_1_week" t then "within_1_week"
  else if strIn "within_2_weeks" t then "within_2_weeks"
  else "not_provided"

/-- `normalize_value`'s timeline heuristics (normalizers.py lines 80-109):
the today/tomorrow/24h checks, then the day-count regex (falling through when
the count exceeds 14), then `timelineWeekTail`. -/
def timelineHeur (t : String) : String :=
  if strIn "today" t || strIn "tomorrow" t || strIn "within_24h" t ||
     strIn "within 24" t || strIn "24h" t then "within_24h"
  else
    match findDayCount t.data with
    | some days =>
      if days ≤ 1 then "within_24h"
      else if days ≤ 7 then "within_1_week"
      else if days ≤ 14 then "within_2_weeks"
      else timelineWeekTail t
    | none => timelineWeekTail t

/-- The synonym table configured for a kind (`norms.get(kind, {}) or {}`). -/
def tableFor (cfg : Config) (kind : String) : List (String × List String) :=
  (alookup kind cfg.normalizers).getD []

/-- `normalize_value(kind, raw, config)` (normalizers.py lines 41-111,
duplicated as `GenericIntakeAgent._normalize_value`, agent.py lines
224-286). -/
def normalize_value (kind : String) (raw : String) (cfg : Config) : String :=
  let raw_clean := norm_text raw
  let raw_lc := norm_lc raw
  if kind = "text" ∨ kind = "service_type" then
    (if raw_clean ≠ "" then raw_clean else "not_provided")
  else
    let table := tableFor cfg kind
    match synonymLookup raw_lc table with
    | some canonical => canonical
    | none =>
      if (alookup raw_clean table).isSome then raw_clean
      else if kind = "budget" then
        match extract_first_int raw_lc with
        | some n => budgetBucket n
        | none => "not_provided"
      else if kind = "timeline" then timelineHeur raw_lc
      else "not_provided"

/-- `normalize_constraints(raw, config)` (normalizers.py lines 114-130,
duplicated as `GenericIntakeAgent._normalize_constraints`). -/
def normalize_constraints (raw : String) (cfg : Config) : String :=
  let raw_clean := norm_text raw
  if raw_clean = "" then ""
  else
    let raw_lc := norm_lc raw_clean
    if pyStarts raw_lc "no" then ""
    else if (cfg.constraintsIgnore.map (fun x => pyStrip (pyLower x))).contains raw_lc
    then ""
    else raw_clean

/-! ## consistency.py -/

/-- `ConsistencyResult` (consistency.py). -/
structure ConsistencyResult where
  applied : Bool
  kept_value : String
deriving Repr, DecidableEq

/-- `keep_existing_on_conflict(field, current_value, new_value, ...)`
(consistency.py lines 13-31). The Python function appends to the
inconsistency list and calls the logger; here it returns the entries to
append: `(result, inconsistency entries, log entries)`. -/
def keep_existing_on_conflict (field current_value new_value : String) :
    ConsistencyResult × List String × List String :=
  if current_value = "not_provided" then
    (⟨true, new_value⟩, [], [])
  else if current_value ≠ new_value then
    (⟨false, current_value⟩,
     [field ++ "_conflict: kept '" ++ current_value ++ "', ignored '" ++ new_value ++ "'"],
     ["inconsistency: " ++ field ++ " '" ++ current_value ++ "' vs '" ++ new_value ++ "'"])
  else
    (⟨false, current_value⟩, [], [])

/-! ## Python's stable sort (descending), as used with `reverse=True` -/

/-- Insert `x` into an already descending-sorted list, before the first
element whose key is not greater than `x`'s: combined with `pysortDesc`
below this reproduces CPython's stable `list.sort(key=..., reverse=True)`
(ties keep their original relative order). -/
def insertDesc {α κ : Type} (gt : κ → κ → Bool) (key : α → κ) (x : α) :
    List α → List α
  | [] => [x]
  | y :: ys => if gt (key y) (key x) then y :: insertDesc gt key x ys else x :: y :: ys

/-- Stable descending sort by key (CPython `list.sort(key=..., reverse=True)`). -/
def pysortDesc {α κ : Type} (gt : κ → κ → Bool) (key : α → κ) : List α → List α
  | [] => []
  | x :: xs => insertDesc gt key x (pysortDesc gt key xs)

/-- Strict greater-than on `Int` keys (`priority`). -/
def intGt (a b : Int) : Bool :=
  a > b

/-- Python's lexicographic tuple comparison on `(score, priority)` keys. -/
def pairGt (a b : Nat × Int) : Bool :=
  a.1 > b.1 ∨ (a.1 = b.1 ∧ a.2 > b.2)

/-! ## The engine state

One record holds the mutable pieces of `IntakeResult` (schema.py) touched by
the embedded code together with the session memory dict of
`GenericIntakeAgent`; field defaults are the dataclass and constructor
defaults. -/

/-- `RequestDetails` (schema.py lines 28-41). `extra_fields` values are the
strings the embedded code paths store there. -/
structure Details where
  issue_description : String := "not_provided"
  service_type : String := "not_provided"
  urgency : String := "not_provided"
  timeline : String := "not_provided"
  location : String := "not_provided"
  budget_range : String := "not_provided"
  constraints : List String := []
  extra_fields : List (String × String) := []
deriving Repr, DecidableEq

/-- The engine's mutable state: result record plus session memory. -/
structure AgentSt where
  details : Details := {}
  summary : String := "Service request"
  intent_id : String := "fallback_unknown"
  request_type : String := "service_request"
  service_category : String := "general_services"
  decision_log : List String := []
  sources_prefill : Bool := false
  llm_used : List String := []
  readiness_status : String := "not_ready"
  readiness_missing : List String := []
  inconsistencies : List String := []
  readiness_notes : String := ""
  handoff_action : String := "ask_follow_up"
  handoff_hint : String := "human_review"
  handoff_next_questions : List String := []
  session_state : String := "S0"
  turns : Nat := 0
  audit_turns : Nat := 0
  mem_missing : List String := []
  mem_collected : List (String × String) := []
  mem_attempts : List (String × Nat) := []
  mem_last_intent : Option String := none
deriving Repr, DecidableEq

/-- `_log(msg)`: append to the decision log (agent.py line 90). -/
def log (st : AgentSt) (msg : String) : AgentSt :=
  { st with decision_log := st.decision_log ++ [msg] }

/-- `_set_state(st)` (agent.py line 80): records the state name. -/
def setState (name : String) (st : AgentSt) : AgentSt :=
  { st with session_state := name }

/-- The interactive collaborators, abstracted as oracles. `answers n` is the
n-th string read from stdin by `_ask` (the agent strips it); `locCorrect raw`
is the string returned by
`FieldCorrector.maybe_correct_location_with_confirmation(raw)` for a
non-blank raw value (the corrector returns the raw value itself when no
suggestion is accepted); `stSuggest val allowed` is the text of
`LLMClient.suggest_service_type_correction(val, allowed)` or `none`;
`stConfirm proposed` the y/n answer typed at the service-type prompt. -/
structure Oracles where
  answers : Nat → String
  locCorrect : String → String
  stSuggest : String → List String → Option String
  stConfirm : String → String

/-! ## intent_router.py -/

/-- The score loop of `IntentRouter.pick_intent` (intent_router.py lines
42-51): +1 per lowered keyword occurring in `t`, +2 per lowered start the
text starts with (empty entries never count, matching Python truthiness). -/
def routerScore (t : String) (it : Intent) : Nat :=
  let s1 := (it.mrule.keywords_any.map pyLower).foldl
    (fun n kw => if kw ≠ "" ∧ strIn kw t then n + 1 else n) 0
  (it.mrule.starts_with_any.map pyLower).foldl
    (fun n s => if s ≠ "" ∧ pyStarts t s then n + 2 else n) s1

/-- The synthetic fallback intent `{"id": "fallback_unknown", "flow": []}`. -/
def fallbackIntent : Intent :=
  { id := "fallback_unknown" }

/-- One iteration of `IntentRouter.pick_intent`'s candidate loop: an `always`
intent goes to the second list, a positive scorer with its `(score, priority)`
key to the first. -/
def routerFoldStep (t : String)
    (acc : List ((Nat × Int) × Intent) × List (Int × Intent)) (it : Intent) :
    List ((Nat × Int) × Intent) × List (Int × Intent) :=
  if it.mrule.always then (acc.1, acc.2 ++ [(it.priority, it)])
  else
    let score := routerScore t it
    if score > 0 then (acc.1 ++ [((score, it.priority), it)], acc.2)
    else acc

/-- `IntentRouter.pick_intent(first_text)` (intent_router.py lines 27-74):
score every non-`always` intent, sort positive scorers by `(score, priority)`
descending (stable) and take the head; else the intent named
`fallback_unknown`; else the highest-priority `always` intent; else the
synthetic fallback. Returns the choice and the state with the selection
logged. -/
def routerPickIntent (cfg : Config) (first_text : String) (st : AgentSt) :
    Intent × AgentSt :=
  let t := norm_lc first_text
  let acc := cfg.intents.foldl (routerFoldStep t) ([], [])
  match pysortDesc pairGt (fun c => c.1) acc.1 with
  | (_, chosen) :: _ =>
    (chosen, log st ("intent_selected: " ++ chosen.id ++ " (rule_match)"))
  | [] =>
    match cfg.intents.find? (fun it => it.id = "fallback_unknown") with
    | some it => (it, log st "intent_selected: fallback_unknown (no_match)")
    | none =>
      match pysortDesc intGt (fun c => c.1) acc.2 with
      | (_, chosen) :: _ =>
        (chosen, log st ("intent_selected: " ++ chosen.id ++ " (always)"))
      | [] => (fallbackIntent, log st "intent_selected: fallback_unknown (no_intents)")

/-! ## agent.py: intent selection and per-field helpers -/

/-- The candidacy test of `GenericIntakeAgent._pick_intent` for a non-`always`
intent: a non-empty lowered keyword list with some member occurring in the
text, or (checked second, via `continue`) a non-empty lowered starts-with
list with some member the text starts with. -/
def agentMatches (t : String) (it : Intent) : Bool :=
  (let kws := it.mrule.keywords_any.map pyLower
   kws ≠ [] ∧ kws.any (fun k => strIn k t)) ||
  (let starts := it.mrule.starts_with_any.map pyLower
   starts ≠ [] ∧ starts.any (fun s => pyStarts t s))

/-- One iteration of `_pick_intent`'s candidate loop (the keyword test first,
the starts-with test only when it fails, both adding the same
`(priority, intent)` entry). -/
def agentFoldStep (t : String)
    (acc : List (Int × Intent) × List (Int × Intent)) (it : Intent) :
    List (Int × Intent) × List (Int × Intent) :=
  if it.mrule.always then (acc.1, acc.2 ++ [(it.priority, it)])
  else
    let kws := it.mrule.keywords_any.map pyLower
    if kws ≠ [] ∧ kws.any (fun k => strIn k t) then
      (acc.1 ++ [(it.priority, it)], acc.2)
    else
      let starts := it.mrule.starts_with_any.map pyLower
      if starts ≠ [] ∧ starts.any (fun s => pyStarts t s) then
        (acc.1 ++ [(it.priority, it)], acc.2)
      else acc

/-- `GenericIntakeAgent._pick_intent(first_text)` (agent.py lines 111-154):
unlike the router it keeps no scores — an intent whose keyword list (checked
first) or starts-with list matches at all becomes a candidate, candidates are
sorted by priority alone (stable descending) and the head wins; with no
candidate, the intent named `pre_quote_request` is the default, then the
highest-priority `always` intent, then the synthetic fallback. -/
def agentPickIntent (cfg : Config) (first_text : String) (st : AgentSt) :
    Intent × AgentSt :=
  let t := norm_lc first_text
  let acc := cfg.intents.foldl (agentFoldStep t) ([], [])
  match pysortDesc intGt (fun c => c.1) acc.1 with
  | (_, chosen) :: _ =>
    (chosen, log st ("intent_selected: " ++ chosen.id ++ " (rule_match)"))
  | [] =>
    match cfg.intents.find? (fun it => it.id = "pre_quote_request") with
    | some it => (it, log st "intent_selected: pre_quote_request (default)")
    | none =>
      match pysortDesc intGt (fun c => c.1) acc.2 with
      | (_, chosen) :: _ =>
        (chosen, log st ("intent_selected: " ++ chosen.id ++ " (always)"))
      | [] => (fallbackIntent, log st "intent_selected: fallback_unknown (no_match)")

/-- `_infer_service_type_from_text(text)` (agent.py lines 156-173): collect
every configured service-type synonym phrase occurring in the lowered text,
sort by phrase length (stable descending), return the head's canonical value
and log the match. -/
def inferServiceType (cfg : Config) (text : String) (st : AgentSt) :
    String × AgentSt :=
  let tl := norm_lc text
  let cands := (tableFor cfg "service_type").foldl
    (fun (acc : List (Nat × String × String)) p =>
      acc ++ p.2.filterMap (fun s =>
        let phrase := pyStrip (pyLower s)
        if phrase ≠ "" ∧ strIn phrase tl then some (pyLen phrase, p.1, phrase)
        else none))
    []
  match pysortDesc (fun (a b : Nat) => a > b) (fun c => c.1) cands with
  | [] => ("not_provided", st)
  | (_, canonical, phrase) :: _ =>
    (canonical,
     log st ("service_type_inferred: " ++ canonical ++ " (matched_phrase='" ++ phrase ++ "')"))

/-- `_question_for_field(intent, field)` (agent.py lines 304-320): first flow
step for the field with a non-empty question, else fixed fallbacks. -/
def questionForField (intent : Intent) (field : String) : String :=
  match intent.flow.find? (fun s => s.field = field ∧ s.question ≠ "") with
  | some s => s.question
  | none =>
    if field = "service_type" then
      "What type of service is this? (repair / installation / maintenance / consultation)"
    else if field = "location" then "What is your location (city/country)?"
    else if field = "budget_range" then
      "Do you have an estimated budget? (example: <50, 50-100, 100-300, 300-500, 500-1000, not sure)"
    else if field = "timeline" then
      "When do you want this addressed? (within_24h / within_1_week / within_2_weeks)"
    else if field = "urgency" then "Is this urgent or flexible? (urgent/flexible)"
    else if field = "issue_description" then
      "Tell me briefly what you need help with so we can prepare a pre-quotation."
    else "Please provide: " ++ field

/-- `_required_fields_from_intent(intent)` (agent.py lines 322-327). -/
def requiredFieldsFromIntent (intent : Intent) : List String :=
  (intent.flow.filter (fun s => s.required ∧ s.field ≠ "")).map (fun s => s.field)

/-- `_normalizer_for_field(intent, field)` (agent.py lines 329-333). -/
def normalizerForField (intent : Intent) (field : String) : String :=
  match intent.flow.find? (fun s => s.field = field) with
  | some s => s.normalize
  | none => "text"

/-! ## agent.py: field application -/

/-- The `constraints` branch of `_apply_field` (agent.py lines 344-349). -/
def agentApplyConstraints (cfg : Config) (raw : String) (st : AgentSt) : AgentSt :=
  let val := normalize_constraints raw cfg
  if val ≠ "" then
    { st with details.constraints := st.details.constraints ++ [val],
              decision_log := st.decision_log ++ ["user_set: constraints += '" ++ val ++ "'"] }
  else st

/-- The `issue_description` branch of `_apply_field` (agent.py lines
352-357): always overwritten, no conflict check. -/
def agentApplyIssue (cfg : Config) (normalizer raw : String) (st : AgentSt) : AgentSt :=
  let val := normalize_value normalizer raw cfg
  { st with mem_collected := aset "issue_description" val st.mem_collected,
            details.issue_description := val,
            decision_log := st.decision_log ++ ["user_set: issue_description"] }

/-- The `service_type` branch of `_apply_field` (agent.py lines 360-375):
permissive normalization, the generic validity filter, then a lower-cased
conflict comparison. -/
def agentApplyServiceType (cfg : Config) (raw : String) (st : AgentSt) : AgentSt :=
  let val := normalize_value "service_type" raw cfg
  if val = "not_provided" ∨ ¬ is_valid_service_type val then st
  else if st.details.service_type ≠ "not_provided" ∧
      norm_lc st.details.service_type ≠ norm_lc val then
    { st with
        inconsistencies := st.inconsistencies ++
          ["service_type_conflict: kept '" ++ st.details.service_type ++ "', ignored '" ++ val ++ "'"],
        decision_log := st.decision_log ++
          ["inconsistency: service_type '" ++ st.details.service_type ++ "' vs '" ++ val ++ "'"] }
  else
    { st with mem_collected := aset "service_type" val st.mem_collected,
              details.service_type := val,
              summary := "Pre-quote for: " ++ val,
              decision_log := st.decision_log ++ ["user_set: service_type='" ++ val ++ "'"] }

/-- The `urgency` branch of `_apply_field` (agent.py lines 378-390): exact
conflict comparison. -/
def agentApplyUrgency (cfg : Config) (raw : String) (st : AgentSt) : AgentSt :=
  let val := normalize_value "urgency" raw cfg
  if val = "not_provided" then st
  else if st.details.urgency ≠ "not_provided" ∧ st.details.urgency ≠ val then
    { st with
        inconsistencies := st.inconsistencies ++
          ["urgency_conflict: kept '" ++ st.details.urgency ++ "', ignored '" ++ val ++ "'"],
        decision_log := st.decision_log ++
          ["inconsistency: urgency '" ++ st.details.urgency ++ "' vs '" ++ val ++ "'"] }
  else
    { st with details.urgency := val,
              decision_log := st.decision_log ++ ["user_set: urgency='" ++ val ++ "'"] }

/-- The `timeline` branch of `_apply_field` (agent.py lines 393-405). -/
def agentApplyTimeline (cfg : Config) (raw : String) (st : AgentSt) : AgentSt :=
  let val := normalize_value "timeline" raw cfg
  if val = "not_provided" then st
  else if st.details.timeline ≠ "not_provided" ∧ st.details.timeline ≠ val then
    { st with
        inconsistencies := st.inconsistencies ++
          ["timeline_conflict: kept '" ++ st.details.timeline ++ "', ignored '" ++ val ++ "'"],
        decision_log := st.decision_log ++
          ["inconsistency: timeline '" ++ st.details.timeline ++ "' vs '" ++ val ++ "'"] }
  else
    { st with details.timeline := val,
              decision_log := st.decision_log ++ ["user_set: timeline='" ++ val ++ "'"] }

/-- The `location` branch of `_apply_field` (agent.py lines 408-428): the
correction oracle first (`corrected` is truthy whenever the raw answer is
non-blank, so the `llm_used` entry is recorded on every location answer),
then a lower-cased conflict comparison. -/
def agentApplyLocation (cfg : Config) (orc : Oracles) (normalizer raw : String)
    (st : AgentSt) : AgentSt :=
  let corrected := orc.locCorrect raw
  let raw_to_use := if corrected ≠ "" then corrected else raw
  let st1 :=
    if corrected ≠ "" then
      let st' :=
        if st.llm_used.contains "location_correction" then st
        else { st with llm_used := st.llm_used ++ ["location_correction"] }
      log st' ("llm_suggestion_accepted: location='" ++ corrected ++ "'")
    else st
  let val := normalize_value normalizer raw_to_use cfg
  if val = "not_provided" then st1
  else if st.details.location ≠ "not_provided" ∧
      norm_lc st.details.location ≠ norm_lc val then
    { st1 with
        inconsistencies := st1.inconsistencies ++
          ["location_conflict: kept '" ++ st.details.location ++ "', ignored '" ++ val ++ "'"],
        decision_log := st1.decision_log ++
          ["inconsistency: location '" ++ st.details.location ++ "' vs '" ++ val ++ "'"] }
  else
    { st1 with details.location := val,
               decision_log := st1.decision_log ++ ["user_set: location='" ++ val ++ "'"] }

/-- The `budget_range` branch of `_apply_field` (agent.py lines 431-443):
exact conflict comparison, audit tag `budget`. -/
def agentApplyBudget (cfg : Config) (raw : String) (st : AgentSt) : AgentSt :=
  let val := normalize_value "budget" raw cfg
  if val = "not_provided" then st
  else if st.details.budget_range ≠ "not_provided" ∧ st.details.budget_range ≠ val then
    { st with
        inconsistencies := st.inconsistencies ++
          ["budget_conflict: kept '" ++ st.details.budget_range ++ "', ignored '" ++ val ++ "'"],
        decision_log := st.decision_log ++
          ["inconsistency: budget '" ++ st.details.budget_range ++ "' vs '" ++ val ++ "'"] }
  else
    { st with details.budget_range := val,
              decision_log := st.decision_log ++ ["user_set: budget_range='" ++ val ++ "'"] }

/-- `GenericIntakeAgent._apply_field(intent, field, raw)` (agent.py lines
335-446). A blank answer is a complete no-op; the per-field branches above
are dispatched in the source's order; any other field is normalized into the
`collected` memory map (with no logging). -/
def agentApplyField (cfg : Config) (orc : Oracles) (intent : Intent)
    (field raw : String) (st : AgentSt) : AgentSt :=
  if norm_text raw = "" then st
  else
    let normalizer := normalizerForField intent field
    if field = "constraints" then agentApplyConstraints cfg raw st
    else if field = "issue_description" then agentApplyIssue cfg normalizer raw st
    else if field = "service_type" then agentApplyServiceType cfg raw st
    else if field = "urgency" then agentApplyUrgency cfg raw st
    else if field = "timeline" then agentApplyTimeline cfg raw st
    else if field = "location" then agentApplyLocation cfg orc normalizer raw st
    else if field = "budget_range" then agentApplyBudget cfg raw st
    else
      { st with mem_collected := aset field (normalize_value normalizer raw cfg) st.mem_collected }

/-- `_apply_prefill(intent, field, value)` (agent.py lines 175-213):
unconditional writes for location / timeline / budget_range / urgency
(dropping `not_provided`), marking the prefill source; any other field falls
back to `_apply_field`. -/
def applyPrefill (cfg : Config) (orc : Oracles) (intent : Intent)
    (field value : String) (st : AgentSt) : AgentSt :=
  let value := norm_text value
  if value = "" then st
  else
    let st := { st with sources_prefill := true }
    if field = "location" then
      let normalizer := normalizerForField intent field
      let norm := normalize_value normalizer value cfg
      if norm ≠ "not_provided" then
        { st with details.location := norm,
                  decision_log := st.decision_log ++ ["prefill: location='" ++ norm ++ "'"] }
      else st
    else if field = "timeline" then
      let norm := normalize_value "timeline" value cfg
      if norm ≠ "not_provided" then
        { st with details.timeline := norm,
                  decision_log := st.decision_log ++ ["prefill: timeline='" ++ norm ++ "'"] }
      else st
    else if field = "budget_range" then
      let norm := normalize_value "budget" value cfg
      if norm ≠ "not_provided" then
        { st with details.budget_range := norm,
                  decision_log := st.decision_log ++ ["prefill: budget_range='" ++ norm ++ "'"] }
      else st
    else if field = "urgency" then
      let norm := normalize_value "urgency" value cfg
      if norm ≠ "not_provided" then
        { st with details.urgency := norm,
                  decision_log := st.decision_log ++ ["prefill: urgency='" ++ norm ++ "'"] }
      else st
    else agentApplyField cfg orc intent field value st

/-! ## field_extractor.py -/

/-- `extract_prefill(text)` (field_extractor.py lines 9-57), returned as an
association list in the dict's insertion order (timeline, budget_range,
location, urgency). -/
def extract_prefill (text : String) : List (String × String) :=
  let t := pyStrip text
  let tl := pyLower t
  (if strIn "within_24h" tl || strIn "within 24" tl || strIn "today" tl ||
      strIn "tomorrow" tl then [("timeline", "within_24h")]
   else if strIn "within_2_weeks" tl || strIn "within 2 weeks" tl ||
      strIn "two weeks" tl || strIn "14 days" tl then [("timeline", "within_2_weeks")]
   else if strIn "within_1_week" tl || strIn "within 1 week" tl ||
      strIn "next week" tl || strIn "this week" tl then [("timeline", "within_1_week")]
   else []) ++
  (match findBudgetNum t.data with
   | some n => [("budget_range", budgetBucket n)]
   | none => []) ++
  (if strIn "toronto" tl then [("location", "Toronto")] else []) ++
  (if ["urgent", "asap", "emergency", "immediately", "right now"].any
      (fun w => strIn w tl) then [("urgency", "urgent")]
   else if ["flexible", "no rush", "not urgent", "whenever"].any
      (fun w => strIn w tl) then [("urgency", "flexible")]
   else [])

/-! ## agent.py: readiness, follow-ups, finalization -/

/-- `MAX_FOLLOWUP_ROUNDS` (agent.py line 27). -/
def MAX_FOLLOWUP_ROUNDS : Nat := 2

/-- `MAX_EMPTY_TRIES_PER_FIELD_IN_RUN` (agent.py line 28). -/
def MAX_EMPTY_TRIES_PER_FIELD_IN_RUN : Nat := 2

/-- `_compute_missing_fields(required_fields)` (agent.py lines 640-659): an
empty required list falls back to the default three; only
`issue_description` (blank or sentinel in the collected map), `service_type`
(collected-or-details value failing `is_valid_service_type`) and `location`
(blank or sentinel) are ever tested. -/
def computeMissing (st : AgentSt) (required : List String) : List String :=
  let req := if required.isEmpty then ["issue_description", "service_type", "location"]
             else required
  (if req.contains "issue_description" then
     let issue := (alookup "issue_description" st.mem_collected).getD ""
     if norm_text issue = "" ∨ issue = "not_provided" then ["issue_description"] else []
   else []) ++
  (if req.contains "service_type" then
     let collected := (alookup "service_type" st.mem_collected).getD ""
     let service_type := if collected ≠ "" then collected else st.details.service_type
     if ¬ is_valid_service_type service_type then ["service_type"] else []
   else []) ++
  (if req.contains "location" then
     if st.details.location = "" ∨ st.details.location = "not_provided"
     then ["location"] else []
   else [])

/-- One iteration of the loop body of `_ask_and_apply_followups` (agent.py
lines 449-459): increment the field's attempt counter, ask (one stdin read,
stripped), then skip the application when the answer is blank and the counter
has reached the cap. -/
def followupStep (cfg : Config) (orc : Oracles) (intent : Intent)
    (st : AgentSt) (field : String) : AgentSt :=
  let st1 := { st with
    mem_attempts := aset field ((alookup field st.mem_attempts).getD 0 + 1) st.mem_attempts }
  let raw := pyStrip (orc.answers st1.turns)
  let st2 := { st1 with turns := st1.turns + 1 }
  if raw = "" ∧ MAX_EMPTY_TRIES_PER_FIELD_IN_RUN ≤ (alookup field st2.mem_attempts).getD 0
  then st2
  else agentApplyField cfg orc intent field raw st2

/-- `_ask_and_apply_followups(intent, missing_fields)` (agent.py lines
448-459). -/
def askAndApplyFollowups (cfg : Config) (orc : Oracles) (intent : Intent)
    (missing : List String) (st : AgentSt) : AgentSt :=
  missing.foldl (followupStep cfg orc intent) st

/-- The body of the bounded follow-up `while` loop of `run()` (agent.py lines
511-516 and 620-625), with the guard `rounds < MAX_FOLLOWUP_ROUNDS` carried
as the structurally decreasing fuel `MAX_FOLLOWUP_ROUNDS - rounds` (the
counter `rounds` itself is still threaded through and returned, as the loop
leaves it). -/
def followupLoopAux (cfg : Config) (orc : Oracles) (intent : Intent)
    (required : List String) : Nat → AgentSt → Nat → AgentSt × Nat
  | 0, st, rounds => (st, rounds)
  | fuel + 1, st, rounds =>
    let missing := computeMissing st required
    if missing ≠ [] then
      followupLoopAux cfg orc intent required fuel
        (askAndApplyFollowups cfg orc intent missing st) (rounds + 1)
    else (st, rounds)

/-- The bounded follow-up `while` loop shared by both paths of `run()`,
instrumented to also return the final value of the `rounds` counter. -/
def followupLoopFrom (cfg : Config) (orc : Oracles) (intent : Intent)
    (required : List String) (st : AgentSt) (rounds : Nat) : AgentSt × Nat :=
  followupLoopAux cfg orc intent required (MAX_FOLLOWUP_ROUNDS - rounds) st rounds

/-- `_handoff_for_ready(intent)` (agent.py lines 461-471). -/
def handoffForReady (cfg : Config) (intent : Intent) : HandoffCfg :=
  let dflt := match cfg.defaultsHandoff with
    | some h => h
    | none => { recommended_action := some "route_human", routing_hint := some "human_review" }
  let recAct := pyStrip (intent.handoff.recommended_action.getD "")
  if recAct = "route_human" ∨ recAct = "completed" then intent.handoff else dflt

/-- `_finalize(not_ready_fields, next_qs)` (agent.py lines 665-672). -/
def finalizeNotReady (st : AgentSt) (not_ready_fields next_qs : List String) : AgentSt :=
  { st with readiness_status := "not_ready",
            readiness_missing := not_ready_fields,
            readiness_notes := "More information is required to proceed.",
            handoff_action := "ask_follow_up",
            handoff_hint := "human_review",
            handoff_next_questions := next_qs,
            mem_missing := not_ready_fields }

/-- The ready branch shared by both paths of `run()` (agent.py lines 525-530
and 630-635); the resumed path additionally clears the persisted missing
list (line 524). -/
def setReady (cfg : Config) (intent : Intent) (st : AgentSt) : AgentSt :=
  let h := handoffForReady cfg intent
  { st with readiness_status := "ready",
            readiness_notes := "Request has sufficient information for human handling.",
            handoff_action := h.recommended_action.getD "route_human",
            handoff_hint := h.routing_hint.getD "human_review",
            handoff_next_questions := [] }

/-- `_done()` (agent.py lines 674-676). -/
def doneResult (st : AgentSt) : AgentSt :=
  { st with audit_turns := st.turns }

/-! ## agent.py: run() -/

/-- One `_ask` (agent.py lines 76-78): bump the turn counter and read the
next stripped stdin line. Returns the answer and the updated state. -/
def askOracle (orc : Oracles) (st : AgentSt) : String × AgentSt :=
  (pyStrip (orc.answers st.turns), { st with turns := st.turns + 1 })

/-- The tail of the resumed path of `run()` after state S4 (agent.py lines
508-533): the bounded follow-up loop, then finalize as not-ready or ready
(the ready branch clears the persisted missing list). The loop's round count
is passed through. -/
def finishResumed (cfg : Config) (orc : Oracles) (intent : Intent)
    (required : List String) (st : AgentSt) : AgentSt × Nat :=
  let p := followupLoopFrom cfg orc intent required st 0
  let missing := computeMissing p.1 required
  let st2 :=
    if missing ≠ [] then
      finalizeNotReady p.1 missing (missing.map (questionForField intent))
    else setReady cfg intent { p.1 with mem_missing := [] }
  (doneResult (setState "S5" st2), p.2)

/-- The tail of the fresh path of `run()` after state S4 (agent.py lines
617-638): identical to the resumed tail except that the ready branch does
not touch the persisted missing list. -/
def finishFresh (cfg : Config) (orc : Oracles) (intent : Intent)
    (required : List String) (st : AgentSt) : AgentSt × Nat :=
  let p := followupLoopFrom cfg orc intent required st 0
  let missing := computeMissing p.1 required
  let st2 :=
    if missing ≠ [] then
      finalizeNotReady p.1 missing (missing.map (questionForField intent))
    else setReady cfg intent p.1
  (doneResult (setState "S5" st2), p.2)

/-- The `last_intent` resolution at the top of `run()` (agent.py lines
481-495): the intent named by the persisted `last_intent_id`, else the one
named `fallback_unknown`, else the first configured intent, else the
synthetic fallback. -/
def resolveLastIntent (cfg : Config) (lastId : Option String) : Intent :=
  let found1 : Option Intent :=
    match lastId with
    | some lid =>
      if lid ≠ "" ∧ cfg.intents ≠ [] then cfg.intents.find? (fun it => it.id = lid)
      else none
    | none => none
  match found1 with
  | some it => it
  | none =>
    match cfg.intents.find? (fun it => it.id = "fallback_unknown") with
    | some it => it
    | none =>
      match cfg.intents with
      | it :: _ => it
      | [] => fallbackIntent

/-- The resumed-session path of `run()` (agent.py lines 497-533): re-ask
exactly the persisted missing fields once (no attempt counting, no blank
skip), then the follow-up loop and finalization over the resolved last
intent's required fields. -/
def runResumed (cfg : Config) (orc : Oracles) (st : AgentSt) : AgentSt × Nat :=
  let last_intent := resolveLastIntent cfg st.mem_last_intent
  let st := setState "S1" st
  let st := { st with
    intent_id := if last_intent.id = "" then "fallback_unknown" else last_intent.id }
  let required := requiredFieldsFromIntent last_intent
  let st := st.mem_missing.foldl
    (fun s f =>
      let a := askOracle orc s
      agentApplyField cfg orc last_intent f a.1 a.2)
    st
  finishResumed cfg orc last_intent required (setState "S4" st)

/-- The fresh-session path of `run()` (agent.py lines 535-638): opening
question, prefill extraction and application, intent selection, service-type
inference, the flow loop with its already-collected skips, then the
follow-up loop and finalization. -/
def runFresh (cfg : Config) (orc : Oracles) (st : AgentSt) : AgentSt × Nat :=
  let st := setState "S1" st
  let issue_q :=
    match cfg.intents.find? (fun it => it.id = "pre_quote_request") with
    | some it => questionForField it "issue_description"
    | none => "Tell me briefly what you need help with so we can prepare a pre-quotation."
  let _ := issue_q
  let a := askOracle orc st
  let first_text := a.1
  let st := a.2
  let synthIssue : Intent := { flow := [{ field := "issue_description", normalize := "text" }] }
  let st := agentApplyField cfg orc synthIssue "issue_description" first_text st
  let prefill := extract_prefill first_text
  let st :=
    if prefill ≠ [] then
      let st := log st "prefill: extracted_fields_from_first_message"
      prefill.foldl
        (fun s kv =>
          let nm := if kv.1 = "timeline" then "timeline"
                    else if kv.1 = "budget_range" then "budget"
                    else if kv.1 = "urgency" then "urgency"
                    else "text"
          applyPrefill cfg orc { flow := [{ field := kv.1, normalize := nm }] } kv.1 kv.2 s)
        st
    else st
  let pick := agentPickIntent cfg first_text st
  let intent := pick.1
  let st := pick.2
  let intent_id := if intent.id = "" then "fallback_unknown" else intent.id
  let st := { st with mem_last_intent := some intent_id, intent_id := intent_id }
  let st := { st with
    request_type := "pre_quote",
    service_category :=
      if intent.service_category ≠ "" then intent.service_category
      else cfg.defaultsServiceCategory.getD "technical_services" }
  let st :=
    if st.details.service_type = "" ∨ st.details.service_type = "not_provided" then
      let infr := inferServiceType cfg first_text st
      if infr.1 ≠ "not_provided" then
        { infr.2 with mem_collected := aset "service_type" infr.1 infr.2.mem_collected,
                      details.service_type := infr.1,
                      summary := "Pre-quote for: " ++ infr.1 }
      else infr.2
    else st
  let st := setState "S2" st
  let acc := intent.flow.foldl
    (fun (acc : AgentSt × List String) step =>
      let s := acc.1
      let req := if step.required ∧ step.field ≠ "" then acc.2 ++ [step.field] else acc.2
      if step.field = "issue_description" ∨ step.field = "" then (s, req)
      else
        let d := s.details
        let already :=
          (step.field = "service_type" ∧ d.service_type ≠ "not_provided") ∨
          (step.field = "urgency" ∧ d.urgency ≠ "not_provided") ∨
          (step.field = "timeline" ∧ d.timeline ≠ "not_provided") ∨
          (step.field = "location" ∧ d.location ≠ "not_provided") ∨
          (step.field = "budget_range" ∧ d.budget_range ≠ "not_provided") ∨
          (step.field = "constraints" ∧ d.constraints ≠ [])
        if already then (s, req)
        else
          let a := askOracle orc s
          (agentApplyField cfg orc intent step.field a.1 a.2, req))
    (st, [])
  finishFresh cfg orc intent acc.2 (setState "S4" acc.1)

/-- `GenericIntakeAgent.run()` (agent.py lines 473-638), instrumented to also
return the number of follow-up rounds the bounded loop executed. The resumed
path is taken when the persisted `missing_fields` list is non-empty. -/
def runAgent (cfg : Config) (orc : Oracles) (st0 : AgentSt) : AgentSt × Nat :=
  let st := setState "S0" st0
  if st.mem_missing ≠ [] then runResumed cfg orc st else runFresh cfg orc st

/-! ## field_handlers.py -/

/-- `FieldHandlers.apply_field(intent, field, raw, normalizer_kind, allowed)`
(field_handlers.py lines 92-231). Differences from
`GenericIntakeAgent._apply_field` visible below: conflicts are resolved only
for `location` and `service_type` (through `keep_existing_on_conflict`,
case-sensitively); `urgency` / `timeline` / `budget` answers overwrite the
current value unconditionally, and land in `extra_fields` when the field
name is not the canonical one; the summary uses the intent label; the
location correction is only recorded when it differs from the raw answer;
`service_type` is mapped into the intent's allowed set with LLM-assisted
confirmation. -/
def handlersApplyField (cfg : Config) (orc : Oracles) (intent : Intent)
    (field raw : String) (normalizer_kind : String) (allowed : List String)
    (st : AgentSt) : AgentSt :=
  if norm_text raw = "" then st
  else
    let d := st.details
    if field = "constraints" then
      let val := normalize_constraints raw cfg
      if val ≠ "" then
        { st with details.constraints := d.constraints ++ [val],
                  decision_log := st.decision_log ++ ["user_set: constraints += '" ++ val ++ "'"] }
      else st
    else if field = "issue_description" then
      let val := normalize_value "text" raw cfg
      { st with mem_collected := aset "issue_description" val st.mem_collected,
                details.issue_description := val,
                decision_log := st.decision_log ++ ["user_set: issue_description"] }
    else if field = "location" then
      let corrected := orc.locCorrect raw
      let raw_to_use := if corrected ≠ "" then corrected else raw
      let st1 :=
        if corrected ≠ "" ∧ corrected ≠ raw then
          let st' :=
            if st.llm_used.contains "location_correction" then st
            else { st with llm_used := st.llm_used ++ ["location_correction"] }
          log st' ("llm_suggestion_accepted: location='" ++ corrected ++ "'")
        else st
      let val := normalize_value "text" raw_to_use cfg
      if val = "not_provided" then st1
      else
        let r := keep_existing_on_conflict "location" st1.details.location val
        let st2 := { st1 with inconsistencies := st1.inconsistencies ++ r.2.1,
                              decision_log := st1.decision_log ++ r.2.2 }
        if r.1.applied then
          { st2 with details.location := val,
                     decision_log := st2.decision_log ++ ["user_set: location='" ++ val ++ "'"] }
        else st2
    else if field = "service_type" then
      let val := normalize_value "service_type" raw cfg
      let allowed_lc := allowed.foldl (fun m a => aset (pyLower a) a m) []
      let corr : String × AgentSt :=
        if allowed ≠ [] ∧ val ≠ "not_provided" ∧ (alookup (pyLower val) allowed_lc).isNone then
          match orc.stSuggest val allowed with
          | some respText =>
            let proposed := pyStrip respText
            let ans := pyLower (pyStrip (orc.stConfirm proposed))
            if ans = "y" ∨ ans = "yes" then
              let st' :=
                if st.llm_used.contains "service_type_correction" then st
                else { st with llm_used := st.llm_used ++ ["service_type_correction"] }
              (proposed, log st' ("llm_suggestion_accepted: service_type='" ++ proposed ++ "'"))
            else (val, log st ("llm_suggestion_rejected: service_type='" ++ proposed ++ "'"))
          | none => (val, st)
        else (val, st)
      let val := if allowed ≠ [] then
          match alookup (pyLower corr.1) allowed_lc with
          | some a => a
          | none => corr.1
        else corr.1
      let st1 := corr.2
      if val = "not_provided" then st1
      else
        let val := if allowed = [] ∧ ¬ is_valid_service_type val then norm_text raw else val
        let r := keep_existing_on_conflict "service_type" st1.details.service_type val
        let st2 := { st1 with inconsistencies := st1.inconsistencies ++ r.2.1,
                              decision_log := st1.decision_log ++ r.2.2 }
        if r.1.applied then
          { st2 with mem_collected := aset "service_type" val st2.mem_collected,
                     details.service_type := val,
                     summary := (if intent.label ≠ "" then intent.label else "Service request")
                       ++ ": " ++ val,
                     decision_log := st2.decision_log ++ ["user_set: service_type='" ++ val ++ "'"] }
        else st2
    else if normalizer_kind = "urgency" then
      let val := normalize_value "urgency" raw cfg
      if val = "not_provided" then st
      else if field = "urgency" then
        { st with details.urgency := val,
                  decision_log := st.decision_log ++ ["user_set: urgency='" ++ val ++ "'"] }
      else
        { st with details.extra_fields := aset field val d.extra_fields,
                  decision_log := st.decision_log ++
                    ["user_set: extra_fields['" ++ field ++ "']='" ++ val ++ "'"] }
    else if normalizer_kind = "timeline" then
      let val := normalize_value "timeline" raw cfg
      if val = "not_provided" then st
      else if field = "timeline" then
        { st with details.timeline := val,
                  decision_log := st.decision_log ++ ["user_set: timeline='" ++ val ++ "'"] }
      else
        { st with details.extra_fields := aset field val d.extra_fields,
                  decision_log := st.decision_log ++
                    ["user_set: extra_fields['" ++ field ++ "']='" ++ val ++ "'"] }
    else if normalizer_kind = "budget" then
      let val := normalize_value "budget" raw cfg
      if val = "not_provided" then st
      else if field = "budget_range" then
        { st with details.budget_range := val,
                  decision_log := st.decision_log ++ ["user_set: budget_range='" ++ val ++ "'"] }
      else
        { st with details.extra_fields := aset field val d.extra_fields,
                  decision_log := st.decision_log ++
                    ["user_set: extra_fields['" ++ field ++ "']='" ++ val ++ "'"] }
    else
      let val := normalize_value normalizer_kind raw cfg
      { st with mem_collected := aset field val st.mem_collected,
                details.extra_fields := aset field val d.extra_fields,
                decision_log := st.decision_log ++
                  ["user_set: extra_fields['" ++ field ++ "']='" ++ val ++ "'"] }

/-! ## Concrete fixtures used by the claim theorems -/

/-- Oracles for runs where stdin is exhausted and the LLM suggests nothing
(the corrector then returns the raw value unchanged). -/
def orcNull : Oracles :=
  { answers := fun _ => "", locCorrect := fun s => s,
    stSuggest := fun _ _ => none, stConfirm := fun _ => "" }

/-- Oracle whose first stdin line is `urgent`. -/
def orcUrgent : Oracles :=
  { orcNull with answers := fun n => if n = 0 then "urgent" else "" }

/-- A config with only an urgency synonym table. -/
def cfgUrg : Config :=
  { normalizers := [("urgency", [("urgent", ["urgent"]), ("flexible", ["flexible"])])] }

/-- Low-priority intent matching keywords `aa` and `bb`. -/
def intentC4A : Intent :=
  { id := "kwA", priority := 0, mrule := { keywords_any := ["aa", "bb"] } }

/-- Higher-priority intent matching only keyword `aa`. -/
def intentC4B : Intent :=
  { id := "kwB", priority := 1, mrule := { keywords_any := ["aa"] } }

/-- Config whose two intents separate score-based from priority-based
selection on the text `aa bb`. -/
def cfgC4 : Config :=
  { intents := [intentC4A, intentC4B] }

/-- Config with one `always` intent collecting issue, location and budget. -/
def cfgLowBudget : Config :=
  { intents := [
      { id := "basic_request", priority := 1, mrule := { always := true },
        flow := [
          { field := "issue_description", required := true, question := "Describe.",
            normalize := "text" },
          { field := "location", required := true, question := "Where?",
            normalize := "text" },
          { field := "budget_range", required := false, question := "Budget?",
            normalize := "budget" }] }] }

/-- Answers driving `cfgLowBudget` to a complete collection whose
budget resolves to the lowest bucket. -/
def orcLowBudget : Oracles :=
  { orcNull with answers := fun n =>
      if n = 0 then "hello there"
      else if n = 1 then "Paris" else if n = 2 then "30 dollars" else "" }

/-- Position of a budget band in the ordered band list (5 for any other
string); used to state that bucketing is monotone. -/
def bandIdx (b : String) : Nat :=
  if b = "<50" then 0
  else if b = "50-100" then 1
  else if b = "100-300" then 2
  else if b = "300-500" then 3
  else if b = "500-1000" then 4
  else 5

/-! # Theorems

Helper lemmas first, then one theorem per claim (with its witness or
counterexample where called for). -/

theorem alookup_aset {β : Type} (k : String) (v : β) (m : List (String × β)) :
    alookup k (aset k v m) = some v := by
  induction m with
  | nil => simp [aset, alookup]
  | cons p rest ih =>
    obtain ⟨k', v'⟩ := p
    by_cases h : k' = k
    · simp [aset, alookup, h]
    · simp [aset, alookup, h, ih]

theorem insertDesc_ne_nil {α κ : Type} (gt : κ → κ → Bool) (key : α → κ)
    (x : α) (l : List α) : insertDesc gt key x l ≠ [] := by
  cases l with
  | nil => simp [insertDesc]
  | cons y ys =>
    simp only [insertDesc]
    split <;> simp

theorem mem_insertDesc {α κ : Type} {gt : κ → κ → Bool} {key : α → κ}
    {x y : α} {l : List α} (hy : y ∈ insertDesc gt key x l) : y = x ∨ y ∈ l := by
  induction l with
  | nil => simpa [insertDesc] using hy
  | cons z zs ih =>
    simp only [insertDesc] at hy
    split at hy
    · rcases List.mem_cons.mp hy with h | h
      · exact Or.inr (h ▸ List.mem_cons_self z zs)
      · rcases ih h with h' | h'
        · exact Or.inl h'
        · exact Or.inr (List.mem_cons_of_mem z h')
    · rcases List.mem_cons.mp hy with h | h
      · exact Or.inl h
      · exact Or.inr h

theorem mem_pysortDesc {α κ : Type} {gt : κ → κ → Bool} {key : α → κ}
    {y : α} : ∀ {l : List α}, y ∈ pysortDesc gt key l → y ∈ l := by
  intro l
  induction l with
  | nil => simp [pysortDesc]
  | cons x xs ih =>
    intro hy
    rw [pysortDesc] at hy
    rcases mem_insertDesc hy with h | h
    · exact h ▸ List.mem_cons_self x xs
    · exact List.mem_cons_of_mem x (ih h)

theorem pysortDesc_eq_nil {α κ : Type} (gt : κ → κ → Bool) (key : α → κ) :
    ∀ {l : List α}, pysortDesc gt key l = [] → l = [] := by
  intro l
  cases l with
  | nil => intro; rfl
  | cons x xs =>
    intro h
    rw [pysortDesc] at h
    exact absurd h (insertDesc_ne_nil gt key x _)

theorem pysortDesc_head_max {α κ : Type} (gt : κ → κ → Bool) (key : α → κ)
    (hirr : ∀ a, gt a a = false)
    (hasym : ∀ a b, gt a b = true → gt b a = false)
    (htr : ∀ a b c, gt a b = true → gt c b = false → gt a c = true) :
    ∀ (l : List α) (h : α) (t : List α), pysortDesc gt key l = h :: t →
      ∀ y ∈ l, gt (key y) (key h) = false := by
  intro l
  induction l with
  | nil => intro h t hst; simp [pysortDesc] at hst
  | cons x xs ih =>
    intro h t hst
    rw [pysortDesc] at hst
    cases hs : pysortDesc gt key xs with
    | nil =>
      rw [hs] at hst
      have hxs : xs = [] := pysortDesc_eq_nil gt key hs
      simp only [insertDesc] at hst
      obtain ⟨hhx, -⟩ := List.cons.inj hst
      subst hxs
      intro y hy
      rcases List.mem_cons.mp hy with rfl | hy'
      · rw [hhx]; exact hirr _
      · simp at hy'
    | cons h' t' =>
      rw [hs] at hst
      simp only [insertDesc] at hst
      split at hst
      case isTrue hgt =>
        obtain ⟨hh, -⟩ := List.cons.inj hst
        subst hh
        intro y hy
        rcases List.mem_cons.mp hy with rfl | hy'
        · exact hasym _ _ hgt
        · exact ih h' t' hs y hy'
      case isFalse hngt =>
        obtain ⟨hh, -⟩ := List.cons.inj hst
        subst hh
        intro y hy
        rcases List.mem_cons.mp hy with rfl | hy'
        · exact hirr _
        · by_contra hc
          have hyx : gt (key y) (key x) = true := by
            cases hgtv : gt (key y) (key x)
            · exact absurd hgtv hc
            · rfl
          have hh'x : gt (key h') (key x) = false := by
            cases hgtv : gt (key h') (key x)
            · rfl
            · exact absurd hgtv hngt
          have hyh' : gt (key y) (key h') = true := htr _ _ _ hyx hh'x
          have := ih h' t' hs y hy'
          rw [hyh'] at this
          exact Bool.noConfusion this

theorem pairGt_irrefl : ∀ a : Nat × Int, pairGt a a = false := by
  intro a
  simp [pairGt]

theorem pairGt_asym : ∀ a b : Nat × Int, pairGt a b = true → pairGt b a = false := by
  intro a b h
  simp only [pairGt, decide_eq_true_eq] at h
  simp only [pairGt, decide_eq_false_iff_not]
  omega

theorem pairGt_cotrans : ∀ a b c : Nat × Int,
    pairGt a b = true → pairGt c b = false → pairGt a c = true := by
  intro a b c h1 h2
  simp only [pairGt, decide_eq_true_eq] at h1 ⊢
  simp only [pairGt, decide_eq_false_iff_not] at h2
  omega

theorem intGt_irrefl : ∀ a : Int, intGt a a = false := by
  intro a
  simp [intGt]

theorem intGt_asym : ∀ a b : Int, intGt a b = true → intGt b a = false := by
  intro a b h
  simp only [intGt, decide_eq_true_eq] at h
  simp only [intGt, decide_eq_false_iff_not]
  omega

theorem intGt_cotrans : ∀ a b c : Int,
    intGt a b = true → intGt c b = false → intGt a c = true := by
  intro a b c h1 h2
  simp only [intGt, decide_eq_true_eq] at h1 ⊢
  simp only [intGt, decide_eq_false_iff_not] at h2
  omega

theorem routerFold_fst (t : String) :
    ∀ (l : List Intent) (c0 : List ((Nat × Int) × Intent)) (a0 : List (Int × Intent)),
      (List.foldl (routerFoldStep t) (c0, a0) l).1
        = c0 ++ l.filterMap (fun it =>
            if it.mrule.always = false ∧ 0 < routerScore t it
            then some ((routerScore t it, it.priority), it) else none) := by
  intro l
  induction l with
  | nil => intro c0 a0; simp
  | cons it rest ih =>
    intro c0 a0
    simp only [List.foldl_cons, List.filterMap_cons]
    by_cases h : it.mrule.always
    · simp only [routerFoldStep, h, if_true]
      rw [ih]
      simp [h]
    · by_cases h2 : 0 < routerScore t it
      · simp only [routerFoldStep, h, if_false, Bool.false_eq_true]
        rw [if_pos h2, ih]
        simp only [h, h2, and_true, eq_self_iff_true]
        simp
      · simp only [routerFoldStep, h, if_false, Bool.false_eq_true]
        rw [if_neg h2, ih]
        simp [h, h2]

theorem agentFold_fst (t : String) :
    ∀ (l : List Intent) (c0 a0 : List (Int × Intent)),
      (List.foldl (agentFoldStep t) (c0, a0) l).1
        = c0 ++ l.filterMap (fun it =>
            if it.mrule.always = false ∧ agentMatches t it = true
            then some (it.priority, it) else none) := by
  intro l
  induction l with
  | nil => intro c0 a0; simp
  | cons it rest ih =>
    intro c0 a0
    simp only [List.foldl_cons, List.filterMap_cons]
    by_cases h : it.mrule.always
    · simp only [agentFoldStep, h, if_true]
      rw [ih]
      simp [h]
    · by_cases hk : (it.mrule.keywords_any.map pyLower) ≠ [] ∧
        (it.mrule.keywords_any.map pyLower).any (fun k => strIn k t)
      · simp only [agentFoldStep, h, if_false, Bool.false_eq_true]
        rw [if_pos hk, ih]
        have hm : agentMatches t it = true := by
          simp only [agentMatches, Bool.or_eq_true, decide_eq_true_eq]
          exact Or.inl hk
        simp [h, hm]
      · by_cases hst : (it.mrule.starts_with_any.map pyLower) ≠ [] ∧
          (it.mrule.starts_with_any.map pyLower).any (fun s => pyStarts t s)
        · simp only [agentFoldStep, h, if_false, Bool.false_eq_true]
          rw [if_neg hk, if_pos hst, ih]
          have hm : agentMatches t it = true := by
            simp only [agentMatches, Bool.or_eq_true, decide_eq_true_eq]
            exact Or.inr hst
          simp [h, hm]
        · simp only [agentFoldStep, h, if_false, Bool.false_eq_true]
          rw [if_neg hk, if_neg hst, ih]
          have hm : agentMatches t it = false := by
            simp only [agentMatches, Bool.or_eq_false_iff, decide_eq_false_iff_not]
            exact ⟨hk, hst⟩
          simp [h, hm]

/-! ## Claim C5 — normalization idempotence -/

/-- Claim C5: `normalize_value` is claimed idempotent for every supported
kind, every string and every config, with canonical budget buckets as fixed
points. The code violates this: with no configured budget table (as in the
repository's own integration-test config), the extractor buckets `$800` to
`500-1000`, but renormalizing that canonical bucket re-parses its first
digit run (500) and lands in `300-500`; likewise the canonical bucket `<50`
renormalizes to `50-100`. This theorem evaluates the code at those failing
inputs. -/
theorem C5_budget_renormalization_bug :
    normalize_value "budget" "$800" {} = "500-1000" ∧
    normalize_value "budget" (normalize_value "budget" "$800" {}) {} = "300-500" ∧
    normalize_value "budget" "<50" {} = "50-100" ∧
    normalize_value "budget" "100-300" {} = "50-100" := by
  decide

/-! ## Claim C6 — blank answers are a complete no-op -/

/-- Claim C6: a blank or whitespace-only raw answer leaves the whole state
(result record, constraints, decision log, inconsistencies) unchanged, in
both `GenericIntakeAgent._apply_field` and `FieldHandlers.apply_field`. -/
theorem C6_blank_noop (cfg : Config) (orc : Oracles) (intent : Intent)
    (field raw normalizer_kind : String) (allowed : List String) (st : AgentSt)
    (hblank : norm_text raw = "") :
    agentApplyField cfg orc intent field raw st = st ∧
    handlersApplyField cfg orc intent field raw normalizer_kind allowed st = st := by
  constructor
  · rw [agentApplyField, if_pos hblank]
  · rw [handlersApplyField, if_pos hblank]

/-- Claim C6 witness: the blank no-op at a concrete whitespace answer. -/
theorem C6_blank_noop_witness :
    agentApplyField {} orcNull {} "urgency" "   " {} = {} ∧
    handlersApplyField {} orcNull {} "urgency" "   " "urgency" [] {} = {} :=
  C6_blank_noop {} orcNull {} "urgency" "   " "urgency" [] {} (by decide)

/-! ## Claim C7 — budget bucketing is a gapless monotone partition -/

/-- Claim C7: for every parsed integer, `budgetBucket` assigns exactly the
claimed band (`<50` for n < 50, `50-100` for 50 ≤ n ≤ 100, `100-300` for
100 < n ≤ 300, `300-500` for 300 < n ≤ 500, `500-1000` for n > 500), always
one of the five bands (no gaps), monotonically non-decreasing in n; and
`normalize_value "budget"` uses exactly this bucketing whenever the config
has no budget synonym table and a digit run is found. -/
theorem C7_budget_partition :
    (∀ n : Nat,
      (n < 50 → budgetBucket n = "<50") ∧
      (50 ≤ n ∧ n ≤ 100 → budgetBucket n = "50-100") ∧
      (100 < n ∧ n ≤ 300 → budgetBucket n = "100-300") ∧
      (300 < n ∧ n ≤ 500 → budgetBucket n = "300-500") ∧
      (500 < n → budgetBucket n = "500-1000")) ∧
    (["<50", "50-100", "100-300", "300-500", "500-1000"].Nodup ∧
     ∀ n : Nat, budgetBucket n ∈ ["<50", "50-100", "100-300", "300-500", "500-1000"]) ∧
    (∀ m n : Nat, m ≤ n → bandIdx (budgetBucket m) ≤ bandIdx (budgetBucket n)) ∧
    (∀ (cfg : Config) (raw : String) (n : Nat), tableFor cfg "budget" = [] →
      extract_first_int (norm_lc raw) = some n →
      normalize_value "budget" raw cfg = budgetBucket n) := by
  refine ⟨?_, ⟨by decide, ?_⟩, ?_, ?_⟩
  · intro n
    refine ⟨?_, ?_, ?_, ?_, ?_⟩ <;>
      (intro h; unfold budgetBucket; split_ifs <;> first | rfl | (exfalso; omega))
  · intro n
    unfold budgetBucket
    split_ifs <;> simp
  · intro m n hmn
    unfold budgetBucket
    split_ifs <;> first | (exfalso; omega) | decide
  · intro cfg raw n htable hint
    rw [normalize_value]
    rw [if_neg (by decide : ¬("budget" = "text" ∨ "budget" = "service_type"))]
    rw [show tableFor cfg "budget" = [] from htable]
    simp only [synonymLookup, alookup, Option.isSome_none, Bool.false_eq_true,
      if_false, if_pos rfl]
    rw [hint]
    simp

/-- Claim C7 witness: the band characterizations, monotonicity and the
normalize link discharged at concrete numbers. -/
theorem C7_budget_partition_witness :
    budgetBucket 75 = "50-100" ∧
    bandIdx (budgetBucket 60) ≤ bandIdx (budgetBucket 400) ∧
    normalize_value "budget" "i told you 800" {} = budgetBucket 800 :=
  ⟨(C7_budget_partition.1 75).2.1 (by omega),
   C7_budget_partition.2.2.1 60 400 (by omega),
   C7_budget_partition.2.2.2 {} "i told you 800" 800 rfl (by decide)⟩

/-! ## Claim C1 — keep-earliest conflict policy and its audit format -/

/-- Claim C1 counterexample: two concrete refutations of the claim as
stated. (1) For `budget_range`, the conflict entry the agent appends is
tagged `budget_conflict`, not `<field>_conflict` with the field's name
`budget_range`. (2) For `service_type`, a value differing from the current
one only by case is not kept out: it overwrites the field and appends no
inconsistency entry (the comparison is lower-cased). -/
theorem C1_counterexample :
    (agentApplyField {} orcNull {} "budget_range" "400"
        { details := { budget_range := "100-300" } }).inconsistencies
      = ["budget_conflict: kept '100-300', ignored '300-500'"] ∧
    "budget_conflict: kept '100-300', ignored '300-500'"
      ≠ "budget_range_conflict: kept '100-300', ignored '300-500'" ∧
    (agentApplyField {} orcNull {} "service_type" "REPAIR"
        { details := { service_type := "repair" } }).details.service_type = "REPAIR" ∧
    (agentApplyField {} orcNull {} "service_type" "REPAIR"
        { details := { service_type := "repair" } }).inconsistencies = [] := by
  decide

/-- Claim C1 (amended): the keep-earliest policy holds with the exact audit
format in `keep_existing_on_conflict` (sentinel current value: applied;
differing values: kept, exactly one `<field>_conflict: kept 'a', ignored
'b'` entry; equal values: no-op, no entry). In the agent's `_apply_field`
the audit tag for `budget_range` is `budget`, not the field name, and
`service_type` compares case-insensitively: a genuinely differing value is
kept out with one `service_type_conflict` entry, while a case-variant of
the current value overwrites it silently. -/
theorem C1_keep_earliest :
    (∀ field a b : String,
      (a = "not_provided" →
        keep_existing_on_conflict field a b = (⟨true, b⟩, [], [])) ∧
      (a ≠ "not_provided" → a ≠ b →
        keep_existing_on_conflict field a b
          = (⟨false, a⟩,
             [field ++ "_conflict: kept '" ++ a ++ "', ignored '" ++ b ++ "'"],
             ["inconsistency: " ++ field ++ " '" ++ a ++ "' vs '" ++ b ++ "'"])) ∧
      (a ≠ "not_provided" →
        keep_existing_on_conflict field a a = (⟨false, a⟩, [], []))) ∧
    (∀ (cfg : Config) (orc : Oracles) (intent : Intent) (st : AgentSt) (raw b : String),
      norm_text raw ≠ "" → normalize_value "budget" raw cfg = b →
      b ≠ "not_provided" → st.details.budget_range ≠ "not_provided" →
      (st.details.budget_range ≠ b →
        (agentApplyField cfg orc intent "budget_range" raw st).details.budget_range
          = st.details.budget_range ∧
        (agentApplyField cfg orc intent "budget_range" raw st).inconsistencies
          = st.inconsistencies ++
            ["budget_conflict: kept '" ++ st.details.budget_range ++ "', ignored '" ++ b ++ "'"]) ∧
      (st.details.budget_range = b →
        (agentApplyField cfg orc intent "budget_range" raw st).details.budget_range
          = st.details.budget_range ∧
        (agentApplyField cfg orc intent "budget_range" raw st).inconsistencies
          = st.inconsistencies)) ∧
    (∀ (cfg : Config) (orc : Oracles) (intent : Intent) (st : AgentSt) (raw b : String),
      norm_text raw ≠ "" → normalize_value "service_type" raw cfg = b →
      b ≠ "not_provided" → is_valid_service_type b = true →
      st.details.service_type ≠ "not_provided" →
      (norm_lc st.details.service_type ≠ norm_lc b →
        (agentApplyField cfg orc intent "service_type" raw st).details.service_type
          = st.details.service_type ∧
        (agentApplyField cfg orc intent "service_type" raw st).inconsistencies
          = st.inconsistencies ++
            ["service_type_conflict: kept '" ++ st.details.service_type ++ "', ignored '" ++ b ++ "'"]) ∧
      (norm_lc st.details.service_type = norm_lc b →
        (agentApplyField cfg orc intent "service_type" raw st).details.service_type = b ∧
        (agentApplyField cfg orc intent "service_type" raw st).inconsistencies
          = st.inconsistencies)) := by
  refine ⟨?_, ?_, ?_⟩
  · intro field a b
    refine ⟨?_, ?_, ?_⟩
    · intro h
      rw [keep_existing_on_conflict, if_pos h]
    · intro h1 h2
      rw [keep_existing_on_conflict, if_neg h1, if_pos h2]
    · intro h1
      rw [keep_existing_on_conflict, if_neg h1, if_neg (by simp)]
  · intro cfg orc intent st raw b hraw hb hbnp hcur
    rw [agentApplyField, if_neg hraw]
    simp only [String.reduceEq, reduceIte]
    unfold agentApplyBudget
    simp only [hb]
    constructor
    · intro hne
      rw [if_neg hbnp, if_pos ⟨hcur, hne⟩]
      simp
    · intro heq
      rw [if_neg hbnp, if_neg (by simp [heq])]
      simp [heq]
  · intro cfg orc intent st raw b hraw hb hbnp hvalid hcur
    rw [agentApplyField, if_neg hraw]
    simp only [String.reduceEq, reduceIte]
    unfold agentApplyServiceType
    simp only [hb]
    constructor
    · intro hne
      rw [if_neg (by simp [hbnp, hvalid]), if_pos ⟨hcur, hne⟩]
      simp
    · intro heq
      rw [if_neg (by simp [hbnp, hvalid]), if_neg (by simp [heq])]
      simp

/-- Claim C1 witness: the resolver cases and the agent's budget and
service-type conflict behavior discharged at concrete values. -/
theorem C1_keep_earliest_witness :
    keep_existing_on_conflict "urgency" "urgent" "flexible"
      = (⟨false, "urgent"⟩,
         ["urgency_conflict: kept 'urgent', ignored 'flexible'"],
         ["inconsistency: urgency 'urgent' vs 'flexible'"]) ∧
    (agentApplyField {} orcNull {} "budget_range" "77"
        { details := { budget_range := "50-100" } }).inconsistencies = [] ∧
    (agentApplyField {} orcNull {} "service_type" "install"
        { details := { service_type := "repair" } }).inconsistencies
      = ["service_type_conflict: kept 'repair', ignored 'install'"] :=
  ⟨(C1_keep_earliest.1 "urgency" "urgent" "flexible").2.1 (by decide) (by decide),
   ((C1_keep_earliest.2.1 {} orcNull {}
      { details := { budget_range := "50-100" } } "77" "50-100"
      (by decide) (by decide) (by decide) (by decide)).2 (by decide)).2,
   ((C1_keep_earliest.2.2 {} orcNull {}
      { details := { service_type := "repair" } } "install" "install"
      (by decide) (by decide) (by decide) (by decide) (by decide)).1 (by decide)).2⟩

/-! ## Claim C2 — missing-field computation over the required set -/

/-- Claim C2 counterexample: a required `urgency` that is still unset (the
sentinel) is not reported as missing — `_compute_missing_fields` never
tests it; likewise a required unset `service_type` is not reported, because
the sentinel string `not_provided` passes `is_valid_service_type`. -/
theorem C2_counterexample :
    computeMissing {} ["urgency"] = [] ∧
    ({} : AgentSt).details.urgency = "not_provided" ∧
    computeMissing {} ["service_type"] = [] ∧
    ({} : AgentSt).details.service_type = "not_provided" ∧
    computeMissing {} ["timeline", "budget_range", "constraints", "extra1"] = [] := by
  decide

/-- Claim C2 (amended): `_compute_missing_fields` only ever inspects
`issue_description` (collected-map value blank or sentinel), `service_type`
(collected-or-details value failing `is_valid_service_type` — which the
sentinel passes, so an unset `service_type` is never reported) and
`location` (blank or sentinel); an empty required list falls back to those
three; every other required name (urgency, timeline, budget_range,
constraints, extra fields) is never reported. -/
theorem C2_missing_only_three (st : AgentSt) (required : List String) :
    (∀ f, f ∈ computeMissing st required →
      f ∈ ["issue_description", "service_type", "location"]) ∧
    ("urgency" ∉ computeMissing st required ∧
     "timeline" ∉ computeMissing st required ∧
     "budget_range" ∉ computeMissing st required ∧
     "constraints" ∉ computeMissing st required) ∧
    (("issue_description" ∈ computeMissing st required ↔
        (if required.isEmpty then ["issue_description", "service_type", "location"]
         else required).contains "issue_description" = true ∧
        (norm_text ((alookup "issue_description" st.mem_collected).getD "") = "" ∨
         (alookup "issue_description" st.mem_collected).getD "" = "not_provided")) ∧
     ("service_type" ∈ computeMissing st required ↔
        (if required.isEmpty then ["issue_description", "service_type", "location"]
         else required).contains "service_type" = true ∧
        is_valid_service_type
          (if (alookup "service_type" st.mem_collected).getD "" ≠ ""
           then (alookup "service_type" st.mem_collected).getD ""
           else st.details.service_type) = false) ∧
     ("location" ∈ computeMissing st required ↔
        (if required.isEmpty then ["issue_description", "service_type", "location"]
         else required).contains "location" = true ∧
        (st.details.location = "" ∨ st.details.location = "not_provided"))) := by
  have hsub : ∀ f, f ∈ computeMissing st required →
      f ∈ ["issue_description", "service_type", "location"] := by
    intro f hf
    unfold computeMissing at hf
    rcases List.mem_append.mp hf with h | h
    · rcases List.mem_append.mp h with h1 | h1 <;>
        (split_ifs at h1 <;> simp_all)
    · split_ifs at h <;> simp_all
  refine ⟨hsub, ⟨?_, ?_, ?_, ?_⟩, ?_, ?_, ?_⟩
  · intro h
    have := hsub _ h
    simp at this
  · intro h
    have := hsub _ h
    simp at this
  · intro h
    have := hsub _ h
    simp at this
  · intro h
    have := hsub _ h
    simp at this
  · unfold computeMissing
    constructor
    · intro hf
      rcases List.mem_append.mp hf with h | h
      · rcases List.mem_append.mp h with h1 | h1 <;> (split_ifs at h1 <;> simp_all)
      · split_ifs at h <;> simp_all
    · intro ⟨hreq, hcond⟩
      refine List.mem_append.mpr (Or.inl (List.mem_append.mpr (Or.inl ?_)))
      rw [if_pos hreq, if_pos hcond]
      simp
  · unfold computeMissing
    constructor
    · intro hf
      rcases List.mem_append.mp hf with h | h
      · rcases List.mem_append.mp h with h1 | h1 <;> (split_ifs at h1 <;> simp_all)
      · split_ifs at h <;> simp_all
    · intro ⟨hreq, hcond⟩
      refine List.mem_append.mpr (Or.inl (List.mem_append.mpr (Or.inr ?_)))
      rw [if_pos hreq]
      rw [if_pos (by simpa using hcond)]
      simp
  · unfold computeMissing
    constructor
    · intro hf
      rcases List.mem_append.mp hf with h | h
      · rcases List.mem_append.mp h with h1 | h1 <;> (split_ifs at h1 <;> simp_all)
      · split_ifs at h <;> simp_all
    · intro ⟨hreq, hcond⟩
      refine List.mem_append.mpr (Or.inr ?_)
      rw [if_pos hreq, if_pos hcond]
      simp

/-! ## Claim C3 — equivalence of the two field-application implementations -/

/-- Claim C3 counterexample: on the same starting state (urgency already
`urgent`) and the same answer `flexible`, `GenericIntakeAgent._apply_field`
keeps the earlier value and records one inconsistency, while
`FieldHandlers.apply_field` overwrites the field silently — the two
implementations are not equivalent, and the handlers version performs no
conflict resolution for urgency at all. -/
theorem C3_counterexample :
    (agentApplyField cfgUrg orcNull {} "urgency" "flexible"
        { details := { urgency := "urgent" } }).details.urgency = "urgent" ∧
    (agentApplyField cfgUrg orcNull {} "urgency" "flexible"
        { details := { urgency := "urgent" } }).inconsistencies
      = ["urgency_conflict: kept 'urgent', ignored 'flexible'"] ∧
    (handlersApplyField cfgUrg orcNull {} "urgency" "flexible" "urgency" []
        { details := { urgency := "urgent" } }).details.urgency = "flexible" ∧
    (handlersApplyField cfgUrg orcNull {} "urgency" "flexible" "urgency" []
        { details := { urgency := "urgent" } }).inconsistencies = [] := by
  decide

/-- Claim C3 (amended): the two implementations agree on urgency, timeline
and budget_range only in the first-write case — when the corresponding
current value is still the sentinel, both produce the identical state (same
field value, same decision log, no inconsistencies). On a conflicting
re-entry they diverge as the counterexample shows. -/
theorem C3_sentinel_equivalence :
    (∀ (cfg : Config) (orc : Oracles) (intent : Intent) (raw : String) (st : AgentSt),
      st.details.urgency = "not_provided" →
      handlersApplyField cfg orc intent "urgency" raw "urgency" [] st
        = agentApplyField cfg orc intent "urgency" raw st) ∧
    (∀ (cfg : Config) (orc : Oracles) (intent : Intent) (raw : String) (st : AgentSt),
      st.details.timeline = "not_provided" →
      handlersApplyField cfg orc intent "timeline" raw "timeline" [] st
        = agentApplyField cfg orc intent "timeline" raw st) ∧
    (∀ (cfg : Config) (orc : Oracles) (intent : Intent) (raw : String) (st : AgentSt),
      st.details.budget_range = "not_provided" →
      handlersApplyField cfg orc intent "budget_range" raw "budget" [] st
        = agentApplyField cfg orc intent "budget_range" raw st) := by
  refine ⟨?_, ?_, ?_⟩ <;>
    (intro cfg orc intent raw st hsent
     by_cases hraw : norm_text raw = ""
     · rw [handlersApplyField, if_pos hraw, agentApplyField, if_pos hraw]
     · rw [handlersApplyField, if_neg hraw, agentApplyField, if_neg hraw]
       simp only [String.reduceEq, reduceIte]
       simp only [agentApplyUrgency, agentApplyTimeline, agentApplyBudget]
       split_ifs with hval hconf
       · rfl
       · exact absurd hconf.1 (by simp [hsent])
       · rfl)

/-- Claim C3 witness: the sentinel-case agreement at a concrete first write
of `urgent`. -/
theorem C3_sentinel_equivalence_witness :
    handlersApplyField cfgUrg orcNull {} "urgency" "urgent" "urgency" [] {}
      = agentApplyField cfgUrg orcNull {} "urgency" "urgent" {} :=
  C3_sentinel_equivalence.1 cfgUrg orcNull {} "urgent" {} rfl

/-! ## Claim C8 — the per-field empty-attempt counter -/

theorem agentApplyConstraints_frame (cfg : Config) (raw : String) (st : AgentSt) :
    (agentApplyConstraints cfg raw st).mem_attempts = st.mem_attempts ∧
    (agentApplyConstraints cfg raw st).turns = st.turns := by
  unfold agentApplyConstraints
  dsimp only
  split_ifs <;> exact ⟨rfl, rfl⟩

theorem agentApplyIssue_frame (cfg : Config) (normalizer raw : String) (st : AgentSt) :
    (agentApplyIssue cfg normalizer raw st).mem_attempts = st.mem_attempts ∧
    (agentApplyIssue cfg normalizer raw st).turns = st.turns :=
  ⟨rfl, rfl⟩

theorem agentApplyServiceType_frame (cfg : Config) (raw : String) (st : AgentSt) :
    (agentApplyServiceType cfg raw st).mem_attempts = st.mem_attempts ∧
    (agentApplyServiceType cfg raw st).turns = st.turns := by
  unfold agentApplyServiceType
  dsimp only
  split_ifs <;> exact ⟨rfl, rfl⟩

theorem agentApplyUrgency_frame (cfg : Config) (raw : String) (st : AgentSt) :
    (agentApplyUrgency cfg raw st).mem_attempts = st.mem_attempts ∧
    (agentApplyUrgency cfg raw st).turns = st.turns := by
  unfold agentApplyUrgency
  dsimp only
  split_ifs <;> exact ⟨rfl, rfl⟩

theorem agentApplyTimeline_frame (cfg : Config) (raw : String) (st : AgentSt) :
    (agentApplyTimeline cfg raw st).mem_attempts = st.mem_attempts ∧
    (agentApplyTimeline cfg raw st).turns = st.turns := by
  unfold agentApplyTimeline
  dsimp only
  split_ifs <;> exact ⟨rfl, rfl⟩

theorem agentApplyLocation_frame (cfg : Config) (orc : Oracles)
    (normalizer raw : String) (st : AgentSt) :
    (agentApplyLocation cfg orc normalizer raw st).mem_attempts = st.mem_attempts ∧
    (agentApplyLocation cfg orc normalizer raw st).turns = st.turns := by
  unfold agentApplyLocation log
  dsimp only
  split_ifs <;> exact ⟨rfl, rfl⟩

theorem agentApplyBudget_frame (cfg : Config) (raw : String) (st : AgentSt) :
    (agentApplyBudget cfg raw st).mem_attempts = st.mem_attempts ∧
    (agentApplyBudget cfg raw st).turns = st.turns := by
  unfold agentApplyBudget
  dsimp only
  split_ifs <;> exact ⟨rfl, rfl⟩

theorem agentApplyField_frame (cfg : Config) (orc : Oracles) (intent : Intent)
    (field raw : String) (st : AgentSt) :
    (agentApplyField cfg orc intent field raw st).mem_attempts = st.mem_attempts ∧
    (agentApplyField cfg orc intent field raw st).turns = st.turns := by
  unfold agentApplyField
  dsimp only
  split_ifs
  · exact ⟨rfl, rfl⟩
  · exact agentApplyConstraints_frame ..
  · exact agentApplyIssue_frame ..
  · exact agentApplyServiceType_frame ..
  · exact agentApplyUrgency_frame ..
  · exact agentApplyTimeline_frame ..
  · exact agentApplyLocation_frame ..
  · exact agentApplyBudget_frame ..
  · exact ⟨rfl, rfl⟩

theorem followupStep_turns (cfg : Config) (orc : Oracles) (intent : Intent)
    (st : AgentSt) (field : String) :
    (followupStep cfg orc intent st field).turns = st.turns + 1 := by
  unfold followupStep
  dsimp only
  split_ifs with h
  · rfl
  · rw [(agentApplyField_frame cfg orc intent field _ _).2]

/-- Claim C8 counterexample: the empty-attempt counter is incremented on a
follow-up ask whose answer is `urgent` — not blank — so it is not
"incremented exactly when the user's answer for that field is blank": the
code increments it on every ask. -/
theorem C8_counterexample :
    (followupStep cfgUrg orcUrgent {} {} "urgency").mem_attempts = [("urgency", 1)] ∧
    pyStrip (orcUrgent.answers 0) = "urgent" ∧
    (followupStep cfgUrg orcUrgent {} {} "urgency").details.urgency = "urgent" := by
  decide

/-- Claim C8 (amended): the follow-up loop body increments the field's
attempt counter once per ask, blank or not; when the answer is blank and
the post-increment counter has reached
`MAX_EMPTY_TRIES_PER_FIELD_IN_RUN` (= 2) the application is skipped for the
round — the state changes only by the counter and the consumed turn; and
each round asks every still-missing field exactly once (one turn per
field). -/
theorem C8_attempts_increment (cfg : Config) (orc : Oracles) (intent : Intent)
    (st : AgentSt) (field : String) :
    ((alookup field (followupStep cfg orc intent st field).mem_attempts).getD 0
       = (alookup field st.mem_attempts).getD 0 + 1) ∧
    (pyStrip (orc.answers st.turns) = "" →
     MAX_EMPTY_TRIES_PER_FIELD_IN_RUN ≤ (alookup field st.mem_attempts).getD 0 + 1 →
     followupStep cfg orc intent st field
       = { st with
             mem_attempts :=
               aset field ((alookup field st.mem_attempts).getD 0 + 1) st.mem_attempts,
             turns := st.turns + 1 }) ∧
    (∀ (missing : List String) (st' : AgentSt),
      (askAndApplyFollowups cfg orc intent missing st').turns
        = st'.turns + missing.length) := by
  refine ⟨?_, ?_, ?_⟩
  · unfold followupStep
    dsimp only
    split_ifs with h
    · simp [alookup_aset]
    · rw [(agentApplyField_frame cfg orc intent field _ _).1]
      simp [alookup_aset]
  · intro hblank hcap
    unfold followupStep
    dsimp only
    rw [if_pos ⟨hblank, by simpa [alookup_aset] using hcap⟩]
  · intro missing
    induction missing with
    | nil => intro st'; simp [askAndApplyFollowups]
    | cons f rest ih =>
      intro st'
      unfold askAndApplyFollowups at ih ⊢
      rw [List.foldl_cons]
      rw [ih (followupStep cfg orc intent st' f), followupStep_turns]
      simp [List.length_cons]
      omega

/-- Claim C8 witness: the increment, the blank-skip and the one-turn-per-
field law at concrete inputs. -/
theorem C8_attempts_increment_witness :
    (alookup "urgency"
        (followupStep cfgUrg orcUrgent {} {} "urgency").mem_attempts).getD 0
      = (alookup "urgency" ({} : AgentSt).mem_attempts).getD 0 + 1 ∧
    followupStep cfgUrg orcNull {} { mem_attempts := [("location", 1)] } "location"
      = { mem_attempts := aset "location"
            ((alookup "location" [("location", 1)]).getD 0 + 1) [("location", 1)],
          turns := 1 } ∧
    (askAndApplyFollowups cfgUrg orcNull {} ["location", "urgency"] {}).turns
      = ({} : AgentSt).turns + (["location", "urgency"] : List String).length :=
  ⟨(C8_attempts_increment cfgUrg orcUrgent {} {} "urgency").1,
   by
     have h := (C8_attempts_increment cfgUrg orcNull {}
       { mem_attempts := [("location", 1)] } "location").2.1 (by decide) (by decide)
     simpa using h,
   (C8_attempts_increment cfgUrg orcNull {} {} "x").2.2 ["location", "urgency"] {}⟩

/-! ## Claim C4 — intent selection -/

/-- Claim C4 counterexample: on the opening text `aa bb`,
`IntentRouter.pick_intent` picks the score-maximal intent `kwA` (score 2,
priority 0), but `GenericIntakeAgent._pick_intent` — the selection `run()`
actually uses — ignores scores and picks the higher-priority `kwB`
(score 1, priority 1): intent selection in the agent is not score-based. -/
theorem C4_counterexample :
    routerScore (norm_lc "aa bb") intentC4A = 2 ∧
    routerScore (norm_lc "aa bb") intentC4B = 1 ∧
    ((routerPickIntent cfgC4 "aa bb" {}).1).id = "kwA" ∧
    ((agentPickIntent cfgC4 "aa bb" {}).1).id = "kwB" ∧
    "kwB" ≠ "kwA" := by
  decide

/-- Claim C4 (amended): `IntentRouter.pick_intent` is score-based exactly as
claimed — whenever some non-`always` intent scores above zero, the chosen
intent is a non-`always` intent with positive score that is maximal in the
lexicographic `(score, priority)` order, so a matching intent always beats
every `always` intent regardless of priorities. The agent's `_pick_intent`
(the selection used by `run()`) also prefers any matching intent over
`always` intents, but ranks candidates by priority alone, with no scores. -/
theorem C4_selection_rules :
    (∀ (cfg : Config) (ft : String) (st : AgentSt),
      (∃ i, i ∈ cfg.intents ∧ i.mrule.always = false ∧ 0 < routerScore (norm_lc ft) i) →
      (routerPickIntent cfg ft st).1 ∈ cfg.intents ∧
      (routerPickIntent cfg ft st).1.mrule.always = false ∧
      0 < routerScore (norm_lc ft) (routerPickIntent cfg ft st).1 ∧
      (∀ i, i ∈ cfg.intents → i.mrule.always = false →
        routerScore (norm_lc ft) i < routerScore (norm_lc ft) (routerPickIntent cfg ft st).1 ∨
        (routerScore (norm_lc ft) i = routerScore (norm_lc ft) (routerPickIntent cfg ft st).1 ∧
         i.priority ≤ (routerPickIntent cfg ft st).1.priority))) ∧
    (∀ (cfg : Config) (ft : String) (st : AgentSt),
      (∃ i, i ∈ cfg.intents ∧ i.mrule.always = false ∧ agentMatches (norm_lc ft) i = true) →
      (agentPickIntent cfg ft st).1 ∈ cfg.intents ∧
      (agentPickIntent cfg ft st).1.mrule.always = false ∧
      agentMatches (norm_lc ft) (agentPickIntent cfg ft st).1 = true ∧
      (∀ i, i ∈ cfg.intents → i.mrule.always = false →
        agentMatches (norm_lc ft) i = true →
        i.priority ≤ (agentPickIntent cfg ft st).1.priority)) := by
  constructor
  · intro cfg ft st hex
    obtain ⟨i0, hi0mem, hi0alw, hi0sc⟩ := hex
    have hcand : (List.foldl (routerFoldStep (norm_lc ft)) ([], []) cfg.intents).1
        = cfg.intents.filterMap (fun it =>
            if it.mrule.always = false ∧ 0 < routerScore (norm_lc ft) it
            then some ((routerScore (norm_lc ft) it, it.priority), it) else none) := by
      simpa using routerFold_fst (norm_lc ft) cfg.intents [] []
    have hmem0 : ((routerScore (norm_lc ft) i0, i0.priority), i0)
        ∈ (List.foldl (routerFoldStep (norm_lc ft)) ([], []) cfg.intents).1 := by
      rw [hcand]
      exact List.mem_filterMap.mpr ⟨i0, hi0mem, by simp [hi0alw, hi0sc]⟩
    cases hsort : pysortDesc pairGt (fun c => c.1)
        (List.foldl (routerFoldStep (norm_lc ft)) ([], []) cfg.intents).1 with
    | nil =>
      rw [pysortDesc_eq_nil pairGt (fun c : (Nat × Int) × Intent => c.1) hsort] at hmem0
      simp at hmem0
    | cons hd tl =>
      obtain ⟨k, c⟩ := hd
      have hpick : (routerPickIntent cfg ft st).1 = c := by
        unfold routerPickIntent
        dsimp only
        rw [hsort]
      have hhdmem : ((k, c) : (Nat × Int) × Intent)
          ∈ (List.foldl (routerFoldStep (norm_lc ft)) ([], []) cfg.intents).1 :=
        mem_pysortDesc (hsort ▸ List.mem_cons_self _ _)
      have hc : c ∈ cfg.intents ∧ c.mrule.always = false ∧
          0 < routerScore (norm_lc ft) c ∧
          k = (routerScore (norm_lc ft) c, c.priority) := by
        rw [hcand] at hhdmem
        obtain ⟨j, hjmem, hj⟩ := List.mem_filterMap.mp hhdmem
        by_cases hcond : j.mrule.always = false ∧ 0 < routerScore (norm_lc ft) j
        · rw [if_pos hcond] at hj
          obtain ⟨hk, hcj⟩ := Prod.mk.inj (Option.some.inj hj)
          subst hcj
          exact ⟨hjmem, hcond.1, hcond.2, hk.symm⟩
        · rw [if_neg hcond] at hj
          exact absurd hj (Option.noConfusion)
      have hmax := pysortDesc_head_max pairGt (fun c : (Nat × Int) × Intent => c.1)
        pairGt_irrefl pairGt_asym pairGt_cotrans _ _ _ hsort
      rw [hpick]
      refine ⟨hc.1, hc.2.1, hc.2.2.1, ?_⟩
      intro i himem hialw
      by_cases hisc : 0 < routerScore (norm_lc ft) i
      · have hientry : ((routerScore (norm_lc ft) i, i.priority), i)
            ∈ (List.foldl (routerFoldStep (norm_lc ft)) ([], []) cfg.intents).1 := by
          rw [hcand]
          exact List.mem_filterMap.mpr ⟨i, himem, by simp [hialw, hisc]⟩
        have hgt := hmax _ hientry
        rw [hc.2.2.2] at hgt
        simp only [pairGt, decide_eq_false_iff_not] at hgt
        omega
      · left
        omega
  · intro cfg ft st hex
    obtain ⟨i0, hi0mem, hi0alw, hi0m⟩ := hex
    have hcand : (List.foldl (agentFoldStep (norm_lc ft)) ([], []) cfg.intents).1
        = cfg.intents.filterMap (fun it =>
            if it.mrule.always = false ∧ agentMatches (norm_lc ft) it = true
            then some (it.priority, it) else none) := by
      simpa using agentFold_fst (norm_lc ft) cfg.intents [] []
    have hmem0 : ((i0.priority, i0) : Int × Intent)
        ∈ (List.foldl (agentFoldStep (norm_lc ft)) ([], []) cfg.intents).1 := by
      rw [hcand]
      exact List.mem_filterMap.mpr ⟨i0, hi0mem, by simp [hi0alw, hi0m]⟩
    cases hsort : pysortDesc intGt (fun c => c.1)
        (List.foldl (agentFoldStep (norm_lc ft)) ([], []) cfg.intents).1 with
    | nil =>
      rw [pysortDesc_eq_nil intGt (fun c : Int × Intent => c.1) hsort] at hmem0
      simp at hmem0
    | cons hd tl =>
      obtain ⟨k, c⟩ := hd
      have hpick : (agentPickIntent cfg ft st).1 = c := by
        unfold agentPickIntent
        dsimp only
        rw [hsort]
      have hhdmem : ((k, c) : Int × Intent)
          ∈ (List.foldl (agentFoldStep (norm_lc ft)) ([], []) cfg.intents).1 :=
        mem_pysortDesc (hsort ▸ List.mem_cons_self _ _)
      have hc : c ∈ cfg.intents ∧ c.mrule.always = false ∧
          agentMatches (norm_lc ft) c = true ∧ k = c.priority := by
        rw [hcand] at hhdmem
        obtain ⟨j, hjmem, hj⟩ := List.mem_filterMap.mp hhdmem
        by_cases hcond : j.mrule.always = false ∧ agentMatches (norm_lc ft) j = true
        · rw [if_pos hcond] at hj
          obtain ⟨hk, hcj⟩ := Prod.mk.inj (Option.some.inj hj)
          subst hcj
          exact ⟨hjmem, hcond.1, hcond.2, hk.symm⟩
        · rw [if_neg hcond] at hj
          exact absurd hj (Option.noConfusion)
      have hmax := pysortDesc_head_max intGt (fun c : Int × Intent => c.1)
        intGt_irrefl intGt_asym intGt_cotrans _ _ _ hsort
      rw [hpick]
      refine ⟨hc.1, hc.2.1, hc.2.2.1, ?_⟩
      intro i himem hialw him
      have hientry : ((i.priority, i) : Int × Intent)
          ∈ (List.foldl (agentFoldStep (norm_lc ft)) ([], []) cfg.intents).1 := by
        rw [hcand]
        exact List.mem_filterMap.mpr ⟨i, himem, by simp [hialw, him]⟩
      have hgt := hmax _ hientry
      rw [hc.2.2.2] at hgt
      simp only [intGt, decide_eq_false_iff_not] at hgt
      omega

/-- Claim C4 witness: both selection rules discharged on the `aa bb`
fixture — the router's choice score-dominates both intents, the agent's
choice priority-dominates both. -/
theorem C4_selection_rules_witness :
    (routerPickIntent cfgC4 "aa bb" {}).1 ∈ cfgC4.intents ∧
    0 < routerScore (norm_lc "aa bb") (routerPickIntent cfgC4 "aa bb" {}).1 ∧
    (agentPickIntent cfgC4 "aa bb" {}).1 ∈ cfgC4.intents ∧
    agentMatches (norm_lc "aa bb") (agentPickIntent cfgC4 "aa bb" {}).1 = true :=
  ⟨(C4_selection_rules.1 cfgC4 "aa bb" {} ⟨intentC4A, by decide, by decide, by decide⟩).1,
   (C4_selection_rules.1 cfgC4 "aa bb" {} ⟨intentC4A, by decide, by decide, by decide⟩).2.2.1,
   (C4_selection_rules.2 cfgC4 "aa bb" {} ⟨intentC4A, by decide, by decide, by decide⟩).1,
   (C4_selection_rules.2 cfgC4 "aa bb" {} ⟨intentC4A, by decide, by decide, by decide⟩).2.2.1⟩

/-! ## Claim C9 — the follow-up loop is bounded -/

theorem followupLoopAux_rounds_le (cfg : Config) (orc : Oracles) (intent : Intent)
    (required : List String) :
    ∀ (fuel : Nat) (st : AgentSt) (rounds : Nat),
      (followupLoopAux cfg orc intent required fuel st rounds).2 ≤ rounds + fuel := by
  intro fuel
  induction fuel with
  | zero =>
    intro st rounds
    simp [followupLoopAux]
  | succ n ih =>
    intro st rounds
    rw [followupLoopAux]
    split_ifs with h
    · have := ih (askAndApplyFollowups cfg orc intent (computeMissing st required) st)
        (rounds + 1)
      omega
    · simp

theorem followupLoopFrom_rounds_le (cfg : Config) (orc : Oracles) (intent : Intent)
    (required : List String) (st : AgentSt) :
    (followupLoopFrom cfg orc intent required st 0).2 ≤ MAX_FOLLOWUP_ROUNDS := by
  unfold followupLoopFrom
  have := followupLoopAux_rounds_le cfg orc intent required
    (MAX_FOLLOWUP_ROUNDS - 0) st 0
  simpa using this

theorem runAgent_cases (cfg : Config) (orc : Oracles) (st0 : AgentSt) :
    runAgent cfg orc st0
      = if (setState "S0" st0).mem_missing ≠ []
        then runResumed cfg orc (setState "S0" st0)
        else runFresh cfg orc (setState "S0" st0) := rfl

theorem runResumed_eq_finish (cfg : Config) (orc : Oracles) (st : AgentSt) :
    ∃ (intent : Intent) (required : List String) (st' : AgentSt),
      runResumed cfg orc st = finishResumed cfg orc intent required st' :=
  ⟨_, _, _, rfl⟩

theorem runFresh_eq_finish (cfg : Config) (orc : Oracles) (st : AgentSt) :
    ∃ (intent : Intent) (required : List String) (st' : AgentSt),
      runFresh cfg orc st = finishFresh cfg orc intent required st' :=
  ⟨_, _, _, rfl⟩

/-- Claim C9: the follow-up loop always terminates after at most
`MAX_FOLLOWUP_ROUNDS` (= 2) rounds — for every configuration, every oracle
(including all-blank answers) and every starting state, in the combined
`run()` as well as in its resumed and fresh paths separately. -/
theorem C9_followup_bounded :
    (∀ (cfg : Config) (orc : Oracles) (st0 : AgentSt),
      (runAgent cfg orc st0).2 ≤ MAX_FOLLOWUP_ROUNDS) ∧
    (∀ (cfg : Config) (orc : Oracles) (st : AgentSt),
      (runResumed cfg orc st).2 ≤ MAX_FOLLOWUP_ROUNDS) ∧
    (∀ (cfg : Config) (orc : Oracles) (st : AgentSt),
      (runFresh cfg orc st).2 ≤ MAX_FOLLOWUP_ROUNDS) := by
  have hfin : ∀ (cfg : Config) (orc : Oracles) (intent : Intent)
      (required : List String) (st : AgentSt),
      (finishResumed cfg orc intent required st).2 ≤ MAX_FOLLOWUP_ROUNDS ∧
      (finishFresh cfg orc intent required st).2 ≤ MAX_FOLLOWUP_ROUNDS := by
    intro cfg orc intent required st
    constructor
    · unfold finishResumed
      dsimp only
      exact followupLoopFrom_rounds_le _ _ _ _ _
    · unfold finishFresh
      dsimp only
      exact followupLoopFrom_rounds_le _ _ _ _ _
  have hres : ∀ (cfg : Config) (orc : Oracles) (st : AgentSt),
      (runResumed cfg orc st).2 ≤ MAX_FOLLOWUP_ROUNDS := by
    intro cfg orc st
    obtain ⟨i, r, s, heq⟩ := runResumed_eq_finish cfg orc st
    rw [heq]
    exact (hfin cfg orc i r s).1
  have hfre : ∀ (cfg : Config) (orc : Oracles) (st : AgentSt),
      (runFresh cfg orc st).2 ≤ MAX_FOLLOWUP_ROUNDS := by
    intro cfg orc st
    obtain ⟨i, r, s, heq⟩ := runFresh_eq_finish cfg orc st
    rw [heq]
    exact (hfin cfg orc i r s).2
  refine ⟨?_, hres, hfre⟩
  intro cfg orc st0
  rw [runAgent_cases]
  split_ifs with h
  · exact hres _ _ _
  · exact hfre _ _ _

/-! ## Claim C10 — `not_a_fit` reachability -/

theorem finishResumed_status (cfg : Config) (orc : Oracles) (intent : Intent)
    (required : List String) (st : AgentSt) :
    (finishResumed cfg orc intent required st).1.readiness_status = "ready" ∨
    (finishResumed cfg orc intent required st).1.readiness_status = "not_ready" := by
  unfold finishResumed finalizeNotReady setReady doneResult setState
  dsimp only
  split_ifs
  · exact Or.inr rfl
  · exact Or.inl rfl

theorem finishFresh_status (cfg : Config) (orc : Oracles) (intent : Intent)
    (required : List String) (st : AgentSt) :
    (finishFresh cfg orc intent required st).1.readiness_status = "ready" ∨
    (finishFresh cfg orc intent required st).1.readiness_status = "not_ready" := by
  unfold finishFresh finalizeNotReady setReady doneResult setState
  dsimp only
  split_ifs
  · exact Or.inr rfl
  · exact Or.inl rfl

/-- Claim C10 counterexample: at exactly the kind of input the claim calls
incompatible economics — a run where `budget_range` resolves to the lowest
bucket `<50` — there is no short-circuit: the run completes with
`readiness.status = "ready"`, not `"not_a_fit"`. (A budget answer
containing `free` has no digits, normalizes to the sentinel and is never
stored at all.) -/
theorem C10_counterexample :
    (runAgent cfgLowBudget orcLowBudget {}).1.details.budget_range = "<50" ∧
    (runAgent cfgLowBudget orcLowBudget {}).1.readiness_status = "ready" ∧
    (runAgent cfgLowBudget orcLowBudget {}).1.readiness_status ≠ "not_a_fit" := by
  decide

/-- Claim C10 (amended): the readiness status `not_a_fit` is unreachable —
for every configuration, every oracle and every starting state, `run()`
finalizes with status `ready` or `not_ready`; no budget-based short-circuit
exists in the code. -/
theorem C10_no_not_a_fit :
    ∀ (cfg : Config) (orc : Oracles) (st0 : AgentSt),
      ((runAgent cfg orc st0).1.readiness_status = "ready" ∨
       (runAgent cfg orc st0).1.readiness_status = "not_ready") ∧
      (runAgent cfg orc st0).1.readiness_status ≠ "not_a_fit" := by
  intro cfg orc st0
  have hstat : (runAgent cfg orc st0).1.readiness_status = "ready" ∨
      (runAgent cfg orc st0).1.readiness_status = "not_ready" := by
    rw [runAgent_cases]
    split_ifs with h
    · obtain ⟨i, r, s, heq⟩ := runResumed_eq_finish cfg orc (setState "S0" st0)
      rw [heq]
      exact finishResumed_status _ _ _ _ _
    · obtain ⟨i, r, s, heq⟩ := runFresh_eq_finish cfg orc (setState "S0" st0)
      rw [heq]
      exact finishFresh_status _ _ _ _ _
  refine ⟨hstat, ?_⟩
  rcases hstat with h | h <;> rw [h] <;> decide

end Intake
